import Mathlib

/-
Shallow embedding of the core of the rml repository.

Source files covered:
  * src/easy_21.rs — the Easy21 card-game environment, the tabular value
    containers V and Q, the Monte Carlo / TD(lambda) learners, and the
    RMS-error diagnostic.
  * src/ad.rs — the vec module of the reverse-mode autodiff tape.

Modelling conventions:
  * Rust f64 is modelled as ℚ (the numeric programs here only use field
    operations, so every computation is exact rational arithmetic).
  * Rust i32 is modelled as Int (no arithmetic in the covered code can
    overflow i32 on the inputs of interest, and the source performs no
    intentional wrapping).
  * The random number generator is modelled by passing the drawn samples
    explicitly: a uniform integer in 1..=10 and a uniform float in [0,1)
    for a single card draw, or a list of pre-drawn cards for a loop.  A
    loop that would consume more randomness than the supplied list holds
    returns none.
  * Rust Vec indexing is modelled with Option: none stands for the fatal
    out-of-bounds fault (index out of range, including a negative i32
    cast to usize).
-/

namespace Easy21

/-- State of the Easy21 game: the dealer's and the player's running card
totals (src/easy_21.rs lines 223-227). -/
structure State where
  dealer : Int
  player : Int
deriving DecidableEq, Repr

/-- The two actions of the environment (src/easy_21.rs lines 238-244). -/
inductive Action where
  | Hit
  | Stick
deriving DecidableEq, Repr

/-- Card colors (src/easy_21.rs lines 246-249). -/
inductive CardColor where
  | Black
  | Red
deriving DecidableEq, Repr

/-- A card: a value and a color (src/easy_21.rs lines 251-254). -/
structure Card where
  value : Int
  color : CardColor
deriving DecidableEq, Repr

/-- Adding a card to a running total: Black adds the value, Red subtracts
it (src/easy_21.rs lines 257-263). -/
def Card.add_to (c : Card) (x : Int) : Int :=
  x + c.value *
    (match c.color with
     | CardColor.Black => 1
     | CardColor.Red => -1)

/-- Drawing a card.  The rng is modelled by its two samples: v is the
uniform integer drawn from 1..=10 and u is the uniform float drawn from
[0,1).  The color is Red when u < 1/3, Black otherwise
(src/easy_21.rs lines 265-275). -/
def Card.draw (v : Int) (u : ℚ) : Card :=
  { value := v,
    color := if u < 1 / 3 then CardColor.Red else CardColor.Black }

/-- Initial state: deal one card to the dealer and one to the player and
keep only the values (src/easy_21.rs lines 230-235).  The rng samples of
the dealer's card come first. -/
def State.init (v1 : Int) (u1 : ℚ) (v2 : Int) (u2 : ℚ) : State :=
  { dealer := (Card.draw v1 u1).value,
    player := (Card.draw v2 u2).value }

/-- Outcome of one environment transition (src/easy_21.rs lines 278-282). -/
structure Sample where
  state : State
  reward : Int
  terminal : Bool
deriving DecidableEq, Repr

/-- A total is bust when it lies outside 1..=21 (src/easy_21.rs lines
284-286). -/
def is_bust (x : Int) : Bool :=
  !(decide (1 ≤ x) && decide (x ≤ 21))

/-- Sign of an integer (src/easy_21.rs lines 288-294). -/
def signum (x : Int) : Int :=
  if 0 < x then 1 else if x < 0 then -1 else 0

/-- The Hit branch of step: add the drawn card to the player's total; on a
bust the sample is terminal with reward -1, otherwise non-terminal with
reward 0 (src/easy_21.rs lines 298-306). -/
def stepHit (state : State) (card : Card) : Sample :=
  let player := card.add_to state.player
  { state := { dealer := state.dealer, player := player },
    reward := if is_bust player then -1 else 0,
    terminal := is_bust player }

/-- The dealer loop of the Stick branch (src/easy_21.rs lines 307-330):
while the dealer total is below 17, draw a card and add it; a bust ends
the episode with reward 1, and once the total reaches 17 the dealer
sticks and the reward is the sign of player - dealer.  The cards the rng
would produce are passed as a list; none means the loop would need more
cards than the list holds. -/
def dealerLoop (player : Int) : Int → List Card → Option Sample
  | dealer, [] =>
    if 17 ≤ dealer then
      some { state := { dealer := dealer, player := player },
             reward := signum (player - dealer),
             terminal := true }
    else
      none
  | dealer, card :: rest =>
    if 17 ≤ dealer then
      some { state := { dealer := dealer, player := player },
             reward := signum (player - dealer),
             terminal := true }
    else
      let dealer' := card.add_to dealer
      if is_bust dealer' then
        some { state := { dealer := dealer', player := player },
               reward := 1,
               terminal := true }
      else
        dealerLoop player dealer' rest

/-- The Stick branch of step (src/easy_21.rs lines 307-330). -/
def stepStick (state : State) (cards : List Card) : Option Sample :=
  dealerLoop state.player state.dealer cards

/-- One environment transition (src/easy_21.rs lines 296-332).  The rng is
modelled by the list of cards it would produce, in order; Hit consumes
exactly one card. -/
def step (state : State) (action : Action) (cards : List Card) : Option Sample :=
  match action with
  | Action.Hit =>
    match cards with
    | [] => none
    | card :: _ => some (stepHit state card)
  | Action.Stick => stepStick state cards

/-- Flat index of a point inside a cuboid of the given extents
(src/easy_21.rs lines 334-340). -/
def cube_index (point mx : Int × Int × Int) : Int :=
  let layers := point.2.2 * mx.1 * mx.2.1
  let rows := point.2.1 * mx.1
  let bits := point.1
  layers + rows + bits

/-- Number of cells of a cuboid of the given extents (src/easy_21.rs lines
342-344). -/
def cube_size (mx : Int × Int × Int) : Int :=
  mx.1 * mx.2.1 * mx.2.2

/-- Bounds-checked read of a Rust Vec at an i32 index cast to usize: a
negative index or an index at or beyond the length is a fatal fault,
modelled as none. -/
def vecGet (l : List α) (idx : Int) : Option α :=
  if idx < 0 then none else l[idx.toNat]?

/-- Bounds-checked in-place update of a Rust Vec cell at an i32 index:
read the cell, apply f, write it back; out of bounds is a fatal fault,
modelled as none. -/
def vecUpdate (l : List α) (idx : Int) (f : α → α) : Option (List α) :=
  if idx < 0 then
    none
  else
    match l[idx.toNat]? with
    | none => none
    | some a => some (l.set idx.toNat (f a))

/-- Bounds-checked write of a Rust Vec cell at an i32 index. -/
def vecSet (l : List α) (idx : Int) (a : α) : Option (List α) :=
  vecUpdate l idx (fun _ => a)

namespace V

/-- Extents of the V container (src/easy_21.rs line 354). -/
def MAX : Int × Int × Int := (41, 41, 1)

/-- Flat index of a state in V: the point is (player+10, dealer+10, 0)
(src/easy_21.rs lines 356-360). -/
def index (state : State) : Int :=
  cube_index (state.player + 10, state.dealer + 10, 0) MAX

/-- Fresh V table with every cell set to the given value (src/easy_21.rs
lines 362-367). -/
def init (a : α) : List α :=
  List.replicate (cube_size MAX).toNat a

/-- V::get (src/easy_21.rs lines 369-374). -/
def get (l : List α) (state : State) : Option α :=
  vecGet l (index state)

/-- V::set (src/easy_21.rs lines 376-379). -/
def set (l : List α) (state : State) (a : α) : Option (List α) :=
  vecSet l (index state) a

/-- V::update (src/easy_21.rs lines 381-388). -/
def update (l : List α) (state : State) (f : α → α) : Option (List α) :=
  vecUpdate l (index state) f

/-- V::map (src/easy_21.rs lines 390-398). -/
def map (l : List α) (f : α → α) : List α :=
  l.map f

/-- V::zip_with (src/easy_21.rs lines 400-411). -/
def zip_with (l : List α) (other : List β) (f : α → β → α) : List α :=
  List.zipWith f l other

end V

namespace Q

/-- Extents of the Q container (src/easy_21.rs line 418). -/
def MAX : Int × Int × Int := (41, 41, 2)

/-- Flat index of a state-action pair in Q: the point is
(player+10, dealer+10, action) with Hit on layer 0 and Stick on layer 1
(src/easy_21.rs lines 420-431). -/
def index (state : State) (action : Action) : Int :=
  cube_index
    (state.player + 10, state.dealer + 10,
     match action with
     | Action.Hit => 0
     | Action.Stick => 1)
    MAX

/-- Fresh Q table with every cell set to the given value (src/easy_21.rs
lines 433-438). -/
def init (a : α) : List α :=
  List.replicate (cube_size MAX).toNat a

/-- Q::get (src/easy_21.rs lines 440-445). -/
def get (l : List α) (state : State) (action : Action) : Option α :=
  vecGet l (index state action)

/-- Q::set (src/easy_21.rs lines 447-450). -/
def set (l : List α) (state : State) (action : Action) (a : α) : Option (List α) :=
  vecSet l (index state action) a

/-- Q::update (src/easy_21.rs lines 452-459). -/
def update (l : List α) (state : State) (action : Action) (f : α → α) : Option (List α) :=
  vecUpdate l (index state action) f

end Q

/-- States inside the rectangle of totals actually encoded by the V and Q
containers: player+10 and dealer+10 both land in 0..=40. -/
def inRect (s : State) : Prop :=
  -10 ≤ s.player ∧ s.player ≤ 30 ∧ -10 ≤ s.dealer ∧ s.dealer ≤ 30

instance (s : State) : Decidable (inRect s) := by
  unfold inRect; infer_instance

/-- The per-visit value update of Monte Carlo prediction
(src/easy_21.rs lines 567-570): a cell holds a value and a visit count,
and one visit with the given terminal reward moves the value toward the
reward by 1/(n+1). -/
def mcValueUpdate (p : ℚ × Int) (reward : Int) : ℚ × Int :=
  let new_n := p.2 + 1
  (p.1 + 1 / (new_n : ℚ) * ((reward : ℚ) - p.1), new_n)

/-- The body of monte_carlo_prediction after the episode has been sampled
(src/easy_21.rs lines 564-571): walk the recorded (state, action) pairs
and apply the incremental-mean update at each visited state's cell. -/
def mcEpisodeUpdate :
    List (ℚ × Int) → List (State × Action) → Int → Option (List (ℚ × Int))
  | v, [], _ => some v
  | v, sa :: rest, reward =>
    match V.update v sa.1 (fun p => mcValueUpdate p reward) with
    | none => none
    | some v' => mcEpisodeUpdate v' rest reward

/-- A sequence of monte_carlo_prediction calls, each given its sampled
episode (the recorded trajectory and the terminal reward). -/
def mcRun :
    List (ℚ × Int) → List (List (State × Action) × Int) → Option (List (ℚ × Int))
  | v, [] => some v
  | v, ep :: eps =>
    match mcEpisodeUpdate v ep.1 ep.2 with
    | none => none
    | some v' => mcRun v' eps

/-- The rewards a given cell of V receives from a sequence of episodes:
one copy of the episode's terminal reward per recorded visit of the given
state. -/
def visitRewards (s : State) (episodes : List (List (State × Action) × Int)) : List Int :=
  episodes.flatMap (fun ep => (ep.1.filter (fun sa => sa.1 == s)).map (fun _ => ep.2))

/-- Folding the incremental-mean update over a list of rewards, starting
from a given cell. -/
def mcFold (p : ℚ × Int) (rs : List Int) : ℚ × Int :=
  rs.foldl mcValueUpdate p

/-- The rewards the flat cell j of V receives from a sequence of episodes:
one copy of the episode's terminal reward per recorded visit of a state
whose flat index is j. -/
def idxRewards (j : ℕ) (episodes : List (List (State × Action) × Int)) : List Int :=
  episodes.flatMap
    (fun ep => (ep.1.filter (fun sa => V.index sa.1 == (j : Int))).map (fun _ => ep.2))

/-- One loop iteration of td_lambda_prediction after the environment step
has been sampled (src/easy_21.rs lines 720-732): decay all eligibility
traces by lambda, add 1 to the current state's trace, compute the TD
error reward + V(next) - V(current), sweep the whole table adding
alpha * TDerror * trace to every cell's value with
alpha = 1/(10 + visits), and finally bump the current state's visit
count.  none models a fatal out-of-bounds fault. -/
def tdStepUpdate (lambda : ℚ) (state next_state : State) (reward : Int)
    (traces : List ℚ) (v : List (ℚ × Int)) :
    Option (List ℚ × List (ℚ × Int)) :=
  match V.update (V.map traces (fun x => x * lambda)) state (fun x => x + 1) with
  | none => none
  | some traces2 =>
    match V.get v next_state, V.get v state with
    | some pn, some ps =>
      match V.update
          (V.zip_with v traces2 (fun p e =>
            (p.1 + 1 / (10 + (p.2 : ℚ)) * ((reward : ℚ) + pn.1 - ps.1) * e, p.2)))
          state (fun p => (p.1, p.2 + 1)) with
      | none => none
      | some v2 => some (traces2, v2)
    | _, _ => none

/-- The dealer intervals of the coarse coding (src/easy_21.rs line 853). -/
def dealerIntervals : List (Int × Int) :=
  [(1, 4), (4, 7), (7, 10)]

/-- The player intervals of the coarse coding (src/easy_21.rs line 854). -/
def playerIntervals : List (Int × Int) :=
  [(1, 6), (4, 9), (7, 12), (10, 15), (13, 18), (16, 21)]

/-- Binary coarse-coding feature vector of a state-action pair
(src/easy_21.rs lines 851-867): one indicator per
(dealer interval, player interval, action) triple. -/
def cuboid_features (state : State) (action : Action) : List ℚ :=
  dealerIntervals.flatMap (fun di =>
    playerIntervals.flatMap (fun pli =>
      [Action.Hit, Action.Stick].map (fun a =>
        let in_dealer := di.1 ≤ state.dealer ∧ state.dealer ≤ di.2
        let in_player := pli.1 ≤ state.player ∧ state.player ≤ pli.2
        if in_dealer ∧ in_player ∧ action = a then (1 : ℚ) else 0)))

/-- Linear action-value prediction of the approximate learner: dot product
of the feature vector with the weight vector (src/easy_21.rs lines
869-876). -/
def vectorGetQ (w : List ℚ) (state : State) (action : Action) : ℚ :=
  (List.zipWith (fun a b => a * b) (cuboid_features state action) w).sum

-- The fixed baseline table of Q::rms_error (src/easy_21.rs lines 993-4356)
-- is embedded in chunks of 231 constants to keep each term shallow; the
-- Rust f64 literals are embedded as the exact decimal rationals they are
-- written as.

set_option maxHeartbeats 1600000 in
/-- Entries 0 to 230 of the baseline table. -/
def optimalChunk0 : List ℚ :=
  [0.0, 0.0, 0.0, 0.0, 0.0, 0.0, 0.0, 0.0,
   0.0, 0.0, 0.0, 0.0, 0.0, 0.0, 0.0, 0.0,
   0.0, 0.0, 0.0, 0.0, 0.0, 0.0, 0.0, 0.0,
   0.0, 0.0, 0.0, 0.0, 0.0, 0.0, 0.0, 0.0,
   0.0, 0.0, 0.0, 0.0, 0.0, 0.0, 0.0, 0.0,
   0.0, 0.0, 0.0, 0.0, 0.0, 0.0, 0.0, 0.0,
   0.0, 0.0, 0.0, 0.0, 0.0, 0.0, 0.0, 0.0,
   0.0, 0.0, 0.0, 0.0, 0.0, 0.0, 0.0, 0.0,
   0.0, 0.0, 0.0, 0.0, 0.0, 0.0, 0.0, 0.0,
   0.0, 0.0, 0.0, 0.0, 0.0, 0.0, 0.0, 0.0,
   0.0, 0.0, 0.0, 0.0, 0.0, 0.0, 0.0, 0.0,
   0.0, 0.0, 0.0, 0.0, 0.0, 0.0, 0.0, 0.0,
   0.0, 0.0, 0.0, 0.0, 0.0, 0.0, 0.0, 0.0,
   0.0, 0.0, 0.0, 0.0, 0.0, 0.0, 0.0, 0.0,
   0.0, 0.0, 0.0, 0.0, 0.0, 0.0, 0.0, 0.0,
   0.0, 0.0, 0.0, 0.0, 0.0, 0.0, 0.0, 0.0,
   0.0, 0.0, 0.0, 0.0, 0.0, 0.0, 0.0, 0.0,
   0.0, 0.0, 0.0, 0.0, 0.0, 0.0, 0.0, 0.0,
   0.0, 0.0, 0.0, 0.0, 0.0, 0.0, 0.0, 0.0,
   0.0, 0.0, 0.0, 0.0, 0.0, 0.0, 0.0, 0.0,
   0.0, 0.0, 0.0, 0.0, 0.0, 0.0, 0.0, 0.0,
   0.0, 0.0, 0.0, 0.0, 0.0, 0.0, 0.0, 0.0,
   0.0, 0.0, 0.0, 0.0, 0.0, 0.0, 0.0, 0.0,
   0.0, 0.0, 0.0, 0.0, 0.0, 0.0, 0.0, 0.0,
   0.0, 0.0, 0.0, 0.0, 0.0, 0.0, 0.0, 0.0,
   0.0, 0.0, 0.0, 0.0, 0.0, 0.0, 0.0, 0.0,
   0.0, 0.0, 0.0, 0.0, 0.0, 0.0, 0.0, 0.0,
   0.0, 0.0, 0.0, 0.0, 0.0, 0.0, 0.0, 0.0,
   0.0, 0.0, 0.0, 0.0, 0.0, 0.0, 0.0
  ]

set_option maxHeartbeats 1600000 in
/-- Entries 231 to 461 of the baseline table. -/
def optimalChunk1 : List ℚ :=
  [0.0, 0.0, 0.0, 0.0, 0.0, 0.0, 0.0, 0.0,
   0.0, 0.0, 0.0, 0.0, 0.0, 0.0, 0.0, 0.0,
   0.0, 0.0, 0.0, 0.0, 0.0, 0.0, 0.0, 0.0,
   0.0, 0.0, 0.0, 0.0, 0.0, 0.0, 0.0, 0.0,
   0.0, 0.0, 0.0, 0.0, 0.0, 0.0, 0.0, 0.0,
   0.0, 0.0, 0.0, 0.0, 0.0, 0.0, 0.0, 0.0,
   0.0, 0.0, 0.0, 0.0, 0.0, 0.0, 0.0, 0.0,
   0.0, 0.0, 0.0, 0.0, 0.0, 0.0, 0.0, 0.0,
   0.0, 0.0, 0.0, 0.0, 0.0, 0.0, 0.0, 0.0,
   0.0, 0.0, 0.0, 0.0, 0.0, 0.0, 0.0, 0.0,
   0.0, 0.0, 0.0, 0.0, 0.0, 0.0, 0.0, 0.0,
   0.0, 0.0, 0.0, 0.0, 0.0, 0.0, 0.0, 0.0,
   0.0, 0.0, 0.0, 0.0, 0.0, 0.0, 0.0, 0.0,
   0.0, 0.0, 0.0, 0.0, 0.0, 0.0, 0.0, 0.0,
   0.0, 0.0, 0.0, 0.0, 0.0, 0.0, 0.0, 0.0,
   0.0, 0.0, 0.0, 0.0, 0.0, 0.0, 0.0, 0.0,
   0.0, 0.0, 0.0, 0.0, 0.0, 0.0, 0.0, 0.0,
   0.0, 0.0, 0.0, 0.0, 0.0, 0.0, 0.0, 0.0,
   0.0, 0.0, 0.0, 0.0, 0.0, 0.0, 0.0, 0.0,
   0.0, 0.0, 0.0, 0.0, 0.0, 0.0, 0.0, 0.0,
   0.0, 0.0, 0.0, 0.0, 0.0, 0.0, 0.0, 0.0,
   0.0, 0.0, 0.0, 0.0, 0.0, 0.0, 0.0, 0.0,
   0.0, 0.0, 0.0, 0.0, 0.0, 0.0, 0.0, 0.0,
   0.0, 0.0, 0.0, 0.0, 0.0, 0.0, 0.0, 0.0,
   0.0, 0.0, 0.0, 0.0, 0.0, 0.0, 0.0, 0.0,
   0.0, 0.0, 0.0, 0.0, 0.0, 0.0, 0.0, 0.0,
   0.0, 0.0, 0.0, 0.0, 0.0, 0.0, 0.0, 0.0,
   0.0, 0.0, 0.0, 0.0, 0.0, 0.0, 0.0, 0.0,
   0.0, 0.0, 0.0, 0.0, 0.0, 0.0, 0.0
  ]

set_option maxHeartbeats 1600000 in
/-- Entries 462 to 692 of the baseline table. -/
def optimalChunk2 : List ℚ :=
  [-0.11491226520118117, -0.06786737907363498, -0.030619839104085844, 0.02775868450272315, 0.061262189381693796, 0.10621665874399272, 0.1555898930659694, 0.2121437686091034,
   0.2802836928031776, 0.35233777664983607, 0.42925827494563323, 0.34407244146623917, 0.2398061694835128, 0.18254739912493953, 0.06708229426433908, -0.009306365554038989,
   -0.10963455149501682, -0.193317732709308, -0.297388716005953, -0.4092653871608203, -0.5230769230769236, 0.0, 0.0, 0.0,
   0.0, 0.0, 0.0, 0.0, 0.0, 0.0, 0.0, 0.0,
   0.0, 0.0, 0.0, 0.0, 0.0, 0.0, 0.0, 0.0,
   0.0, -0.15451339915373635, -0.1137133887481722, -0.0705105633802819, -0.025558656766198024, 0.012102283818075186, 0.0543795880550208, 0.1076041187502205,
   0.1536284546312137, 0.22808896066281567, 0.30187863383590896, 0.38025125355902867, 0.2966944943840231, 0.20942916010180543, 0.12076496281430746, 0.032867910539972706,
   -0.04432937610507716, -0.13295370141124052, -0.22555893636724395, -0.32519043866561637, -0.43216896831843926, -0.5516467065868265, 0.0, 0.0,
   0.0, 0.0, 0.0, 0.0, 0.0, 0.0, 0.0, 0.0,
   0.0, 0.0, 0.0, 0.0, 0.0, 0.0, 0.0, 0.0,
   0.0, 0.0, -0.19536358938721568, -0.14654337296345368, -0.10503668171557536, -0.06577327564981808, -0.029844694766160685, 0.013401313576575107,
   0.05375605460149762, 0.11313887863283897, 0.18295655834020405, 0.25710431103823017, 0.3314964501583053, 0.2528369643284729, 0.1905268245529248, 0.08493743984600566,
   0.014823761941363759, -0.049426301853486, -0.1464570858283433, -0.25029469548133604, -0.3437168610816545, -0.44753511429358345, -0.5609386828160483, 0.0,
   0.0, 0.0, 0.0, 0.0, 0.0, 0.0, 0.0, 0.0,
   0.0, 0.0, 0.0, 0.0, 0.0, 0.0, 0.0, 0.0,
   0.0, 0.0, 0.0, -0.21008193801211164, -0.17538001933046252, -0.14231569956760762, -0.10002115357495371, -0.06990163701573071,
   -0.021642909420415836, 0.015474564996674099, 0.07142732370255199, 0.14453983168283382, 0.21653032706435663, 0.2938813980573196, 0.21884597985762266, 0.1464528213533124,
   0.0506744440393731, -0.01988047322844251, -0.06458797327394196, -0.1585381222432264, -0.25984354628422407, -0.3548343657419879, -0.4483735996760701, -0.5844961240310086,
   0.0, 0.0, 0.0, 0.0, 0.0, 0.0, 0.0, 0.0,
   0.0, 0.0, 0.0, 0.0, 0.0, 0.0, 0.0, 0.0,
   0.0, 0.0, 0.0, 0.0, -0.2435895170268789, -0.20645002375213387, -0.1739972532309745, -0.1369076697606272,
   -0.09930191972076824, -0.05834504567814508, -0.017246511302155376, 0.03611378555798728, 0.10549587198435352, 0.18136593115015046, 0.25978829599981196, 0.1838975950644522,
   0.1149926675945047, 0.04564315352697091, -0.021732858928743163, -0.09004133044676231, -0.18575572671801516, -0.27386587771203197, -0.37329255861365934, -0.47527891955372975,
   -0.5744125326370759, 0.0, 0.0, 0.0, 0.0, 0.0, 0.0, 0.0,
   0.0, 0.0, 0.0, 0.0, 0.0, 0.0, 0.0, 0.0,
   0.0, 0.0, 0.0, 0.0, 0.0, -0.27852384108270123, -0.22820869565217436, -0.20029916165165054,
   -0.16349691661916432, -0.12039571710731506, -0.09318406322028257, -0.04723023010927184, 0.0019072140370952945, 0.07787374166557515, 0.15049777100223782, 0.2322769894004378,
   0.1591973727771936, 0.08931224901653322, 0.022931830633169035, -0.0655301845480141, -0.11994868505452196, -0.18766108247422658, -0.28786023348844725, -0.3706597921533877,
   -0.48783783783783885, -0.6012031139419687, 0.0, 0.0, 0.0, 0.0, 0.0
  ]

set_option maxHeartbeats 1600000 in
/-- Entries 693 to 923 of the baseline table. -/
def optimalChunk3 : List ℚ :=
  [0.0, 0.0, 0.0, 0.0, 0.0, 0.0, 0.0, 0.0,
   0.0, 0.0, 0.0, 0.0, 0.0, 0.0, 0.0, -0.33104459587682467,
   -0.2841134384966806, -0.24320319768443688, -0.22101860449121533, -0.17552937972356536, -0.1597104283533206, -0.10790774299835315, -0.05206672495671124, 0.019142135443477693,
   0.0961110218802743, 0.1794773445607034, 0.11318514725009655, 0.046558623334840905, -0.016420994295421824, -0.09542743538767391, -0.1453172205438066, -0.22816421001340034,
   -0.32323987538940846, -0.4060579728136082, -0.5018618506795725, -0.6012630662020908, 0.0, 0.0, 0.0, 0.0,
   0.0, 0.0, 0.0, 0.0, 0.0, 0.0, 0.0, 0.0,
   0.0, 0.0, 0.0, 0.0, 0.0, 0.0, 0.0, 0.0,
   -0.38128457604119714, -0.34740869685114084, -0.30124530876833583, -0.2748016042324442, -0.24459988712353048, -0.21574503793262761, -0.17731857235032436, -0.12170442501324903,
   -0.044085019132882305, 0.03507587566000208, 0.12112500147282204, 0.05802993848060112, -0.0019452718850165546, -0.06202731559747433, -0.11872603490100896, -0.17585015457355768,
   -0.24410207029369296, -0.3300396462336063, -0.4195273631840809, -0.5112491000719918, -0.6316855753646693, 0.0, 0.0, 0.0,
   0.0, 0.0, 0.0, 0.0, 0.0, 0.0, 0.0, 0.0,
   0.0, 0.0, 0.0, 0.0, 0.0, 0.0, 0.0, 0.0,
   0.0, -0.4412216345333551, -0.39317547341159326, -0.3555092507015711, -0.32415521476465725, -0.29958776881943167, -0.2788138632584532, -0.2358623199192821,
   -0.18023687920556775, -0.1100223593361758, -0.029017707801376656, 0.05740426948968794, 0.00035883193030051847, -0.05629316779741276, -0.11026174001039385, -0.16158840742187114,
   -0.21309033901626462, -0.2780706585884008, -0.35184598320392957, -0.44065742267041713, -0.5268760678144307, -0.6365723029839313, 0.0, 0.0,
   0.0, 0.0, 0.0, 0.0, 0.0, 0.0, 0.0, 0.0,
   0.0, 0.0, 0.0, 0.0, 0.0, 0.0, 0.0, 0.0,
   0.0, 0.0, -0.4876375952582563, -0.4490466909583913, -0.41903708915468835, -0.38586253771426776, -0.3609585290164124, -0.3383834548400181,
   -0.29713587779121853, -0.247434215378843, -0.18026142931930386, -0.10015519728161736, -0.010927569586099766, -0.06498681033376622, -0.11433335009236398, -0.16548244144635044,
   -0.2113559410967657, -0.2591830025255648, -0.3114327592524731, -0.3858151854031789, -0.4597217873596612, -0.5684354361193283, -0.6447971781305095, 0.0,
   0.0, 0.0, 0.0, 0.0, 0.0, 0.0, 0.0, 0.0,
   0.0, 0.0, 0.0, 0.0, 0.0, 0.0, 0.0, 0.0,
   0.0, 0.0, 0.0, 0.0, 0.0, 0.0, 0.0, 0.0,
   0.0, 0.0, 0.0, 0.0, 0.0, 0.0, 0.0, 0.0,
   0.0, 0.0, 0.0, 0.0, 0.0, 0.0, 0.0, 0.0,
   0.0, 0.0, 0.0, 0.0, 0.0, 0.0, 0.0, 0.0,
   0.0, 0.0, 0.0, 0.0, 0.0, 0.0, 0.0, 0.0,
   0.0, 0.0, 0.0, 0.0, 0.0, 0.0, 0.0, 0.0,
   0.0, 0.0, 0.0, 0.0, 0.0, 0.0, 0.0
  ]

set_option maxHeartbeats 1600000 in
/-- Entries 924 to 1154 of the baseline table. -/
def optimalChunk4 : List ℚ :=
  [0.0, 0.0, 0.0, 0.0, 0.0, 0.0, 0.0, 0.0,
   0.0, 0.0, 0.0, 0.0, 0.0, 0.0, 0.0, 0.0,
   0.0, 0.0, 0.0, 0.0, 0.0, 0.0, 0.0, 0.0,
   0.0, 0.0, 0.0, 0.0, 0.0, 0.0, 0.0, 0.0,
   0.0, 0.0, 0.0, 0.0, 0.0, 0.0, 0.0, 0.0,
   0.0, 0.0, 0.0, 0.0, 0.0, 0.0, 0.0, 0.0,
   0.0, 0.0, 0.0, 0.0, 0.0, 0.0, 0.0, 0.0,
   0.0, 0.0, 0.0, 0.0, 0.0, 0.0, 0.0, 0.0,
   0.0, 0.0, 0.0, 0.0, 0.0, 0.0, 0.0, 0.0,
   0.0, 0.0, 0.0, 0.0, 0.0, 0.0, 0.0, 0.0,
   0.0, 0.0, 0.0, 0.0, 0.0, 0.0, 0.0, 0.0,
   0.0, 0.0, 0.0, 0.0, 0.0, 0.0, 0.0, 0.0,
   0.0, 0.0, 0.0, 0.0, 0.0, 0.0, 0.0, 0.0,
   0.0, 0.0, 0.0, 0.0, 0.0, 0.0, 0.0, 0.0,
   0.0, 0.0, 0.0, 0.0, 0.0, 0.0, 0.0, 0.0,
   0.0, 0.0, 0.0, 0.0, 0.0, 0.0, 0.0, 0.0,
   0.0, 0.0, 0.0, 0.0, 0.0, 0.0, 0.0, 0.0,
   0.0, 0.0, 0.0, 0.0, 0.0, 0.0, 0.0, 0.0,
   0.0, 0.0, 0.0, 0.0, 0.0, 0.0, 0.0, 0.0,
   0.0, 0.0, 0.0, 0.0, 0.0, 0.0, 0.0, 0.0,
   0.0, 0.0, 0.0, 0.0, 0.0, 0.0, 0.0, 0.0,
   0.0, 0.0, 0.0, 0.0, 0.0, 0.0, 0.0, 0.0,
   0.0, 0.0, 0.0, 0.0, 0.0, 0.0, 0.0, 0.0,
   0.0, 0.0, 0.0, 0.0, 0.0, 0.0, 0.0, 0.0,
   0.0, 0.0, 0.0, 0.0, 0.0, 0.0, 0.0, 0.0,
   0.0, 0.0, 0.0, 0.0, 0.0, 0.0, 0.0, 0.0,
   0.0, 0.0, 0.0, 0.0, 0.0, 0.0, 0.0, 0.0,
   0.0, 0.0, 0.0, 0.0, 0.0, 0.0, 0.0, 0.0,
   0.0, 0.0, 0.0, 0.0, 0.0, 0.0, 0.0
  ]

set_option maxHeartbeats 1600000 in
/-- Entries 1155 to 1385 of the baseline table. -/
def optimalChunk5 : List ℚ :=
  [0.0, 0.0, 0.0, 0.0, 0.0, 0.0, 0.0, 0.0,
   0.0, 0.0, 0.0, 0.0, 0.0, 0.0, 0.0, 0.0,
   0.0, 0.0, 0.0, 0.0, 0.0, 0.0, 0.0, 0.0,
   0.0, 0.0, 0.0, 0.0, 0.0, 0.0, 0.0, 0.0,
   0.0, 0.0, 0.0, 0.0, 0.0, 0.0, 0.0, 0.0,
   0.0, 0.0, 0.0, 0.0, 0.0, 0.0, 0.0, 0.0,
   0.0, 0.0, 0.0, 0.0, 0.0, 0.0, 0.0, 0.0,
   0.0, 0.0, 0.0, 0.0, 0.0, 0.0, 0.0, 0.0,
   0.0, 0.0, 0.0, 0.0, 0.0, 0.0, 0.0, 0.0,
   0.0, 0.0, 0.0, 0.0, 0.0, 0.0, 0.0, 0.0,
   0.0, 0.0, 0.0, 0.0, 0.0, 0.0, 0.0, 0.0,
   0.0, 0.0, 0.0, 0.0, 0.0, 0.0, 0.0, 0.0,
   0.0, 0.0, 0.0, 0.0, 0.0, 0.0, 0.0, 0.0,
   0.0, 0.0, 0.0, 0.0, 0.0, 0.0, 0.0, 0.0,
   0.0, 0.0, 0.0, 0.0, 0.0, 0.0, 0.0, 0.0,
   0.0, 0.0, 0.0, 0.0, 0.0, 0.0, 0.0, 0.0,
   0.0, 0.0, 0.0, 0.0, 0.0, 0.0, 0.0, 0.0,
   0.0, 0.0, 0.0, 0.0, 0.0, 0.0, 0.0, 0.0,
   0.0, 0.0, 0.0, 0.0, 0.0, 0.0, 0.0, 0.0,
   0.0, 0.0, 0.0, 0.0, 0.0, 0.0, 0.0, 0.0,
   0.0, 0.0, 0.0, 0.0, 0.0, 0.0, 0.0, 0.0,
   0.0, 0.0, 0.0, 0.0, 0.0, 0.0, 0.0, 0.0,
   0.0, 0.0, 0.0, 0.0, 0.0, 0.0, 0.0, 0.0,
   0.0, 0.0, 0.0, 0.0, 0.0, 0.0, 0.0, 0.0,
   0.0, 0.0, 0.0, 0.0, 0.0, 0.0, 0.0, 0.0,
   0.0, 0.0, 0.0, 0.0, 0.0, 0.0, 0.0, 0.0,
   0.0, 0.0, 0.0, 0.0, 0.0, 0.0, 0.0, 0.0,
   0.0, 0.0, 0.0, 0.0, 0.0, 0.0, 0.0, 0.0,
   0.0, 0.0, 0.0, 0.0, 0.0, 0.0, 0.0
  ]

set_option maxHeartbeats 1600000 in
/-- Entries 1386 to 1616 of the baseline table. -/
def optimalChunk6 : List ℚ :=
  [0.0, 0.0, 0.0, 0.0, 0.0, 0.0, 0.0, 0.0,
   0.0, 0.0, 0.0, 0.0, 0.0, 0.0, 0.0, 0.0,
   0.0, 0.0, 0.0, 0.0, 0.0, 0.0, 0.0, 0.0,
   0.0, 0.0, 0.0, 0.0, 0.0, 0.0, 0.0, 0.0,
   0.0, 0.0, 0.0, 0.0, 0.0, 0.0, 0.0, 0.0,
   0.0, 0.0, 0.0, 0.0, 0.0, 0.0, 0.0, 0.0,
   0.0, 0.0, 0.0, 0.0, 0.0, 0.0, 0.0, 0.0,
   0.0, 0.0, 0.0, 0.0, 0.0, 0.0, 0.0, 0.0,
   0.0, 0.0, 0.0, 0.0, 0.0, 0.0, 0.0, 0.0,
   0.0, 0.0, 0.0, 0.0, 0.0, 0.0, 0.0, 0.0,
   0.0, 0.0, 0.0, 0.0, 0.0, 0.0, 0.0, 0.0,
   0.0, 0.0, 0.0, 0.0, 0.0, 0.0, 0.0, 0.0,
   0.0, 0.0, 0.0, 0.0, 0.0, 0.0, 0.0, 0.0,
   0.0, 0.0, 0.0, 0.0, 0.0, 0.0, 0.0, 0.0,
   0.0, 0.0, 0.0, 0.0, 0.0, 0.0, 0.0, 0.0,
   0.0, 0.0, 0.0, 0.0, 0.0, 0.0, 0.0, 0.0,
   0.0, 0.0, 0.0, 0.0, 0.0, 0.0, 0.0, 0.0,
   0.0, 0.0, 0.0, 0.0, 0.0, 0.0, 0.0, 0.0,
   0.0, 0.0, 0.0, 0.0, 0.0, 0.0, 0.0, 0.0,
   0.0, 0.0, 0.0, 0.0, 0.0, 0.0, 0.0, 0.0,
   0.0, 0.0, 0.0, 0.0, 0.0, 0.0, 0.0, 0.0,
   0.0, 0.0, 0.0, 0.0, 0.0, 0.0, 0.0, 0.0,
   0.0, 0.0, 0.0, 0.0, 0.0, 0.0, 0.0, 0.0,
   0.0, 0.0, 0.0, 0.0, 0.0, 0.0, 0.0, 0.0,
   0.0, 0.0, 0.0, 0.0, 0.0, 0.0, 0.0, 0.0,
   0.0, 0.0, 0.0, 0.0, 0.0, 0.0, 0.0, 0.0,
   0.0, 0.0, 0.0, 0.0, 0.0, 0.0, 0.0, 0.0,
   0.0, 0.0, 0.0, 0.0, 0.0, 0.0, 0.0, 0.0,
   0.0, 0.0, 0.0, 0.0, 0.0, 0.0, 0.0
  ]

set_option maxHeartbeats 1600000 in
/-- Entries 1617 to 1847 of the baseline table. -/
def optimalChunk7 : List ℚ :=
  [0.0, 0.0, 0.0, 0.0, 0.0, 0.0, 0.0, 0.0,
   0.0, 0.0, 0.0, 0.0, 0.0, 0.0, 0.0, 0.0,
   0.0, 0.0, 0.0, 0.0, 0.0, 0.0, 0.0, 0.0,
   0.0, 0.0, 0.0, 0.0, 0.0, 0.0, 0.0, 0.0,
   0.0, 0.0, 0.0, 0.0, 0.0, 0.0, 0.0, 0.0,
   0.0, 0.0, 0.0, 0.0, 0.0, 0.0, 0.0, 0.0,
   0.0, 0.0, 0.0, 0.0, 0.0, 0.0, 0.0, 0.0,
   0.0, 0.0, 0.0, 0.0, 0.0, 0.0, 0.0, 0.0,
   0.0, 0.0, 0.0, 0.0, 0.0, 0.0, 0.0, 0.0,
   0.0, 0.0, 0.0, 0.0, 0.0, 0.0, 0.0, 0.0,
   0.0, 0.0, 0.0, 0.0, 0.0, 0.0, 0.0, 0.0,
   0.0, 0.0, 0.0, 0.0, 0.0, 0.0, 0.0, 0.0,
   0.0, 0.0, 0.0, 0.0, 0.0, 0.0, 0.0, 0.0,
   0.0, 0.0, 0.0, 0.0, 0.0, 0.0, 0.0, 0.0,
   0.0, 0.0, 0.0, 0.0, 0.0, 0.0, 0.0, 0.0,
   0.0, 0.0, 0.0, 0.0, 0.0, 0.0, 0.0, 0.0,
   0.0, 0.0, 0.0, 0.0, 0.0, 0.0, 0.0, 0.0,
   0.0, 0.0, 0.0, 0.0, 0.0, 0.0, 0.0, 0.0,
   0.0, 0.0, 0.0, 0.0, 0.0, 0.0, 0.0, 0.0,
   0.0, 0.0, 0.0, 0.0, 0.0, 0.0, 0.0, 0.0,
   0.0, 0.0, 0.0, 0.0, 0.0, 0.0, 0.0, 0.0,
   0.0, 0.0, 0.0, 0.0, 0.0, 0.0, 0.0, 0.0,
   0.0, 0.0, 0.0, 0.0, 0.0, 0.0, 0.0, 0.0,
   0.0, 0.0, 0.0, 0.0, 0.0, 0.0, 0.0, 0.0,
   0.0, 0.0, 0.0, 0.0, 0.0, 0.0, 0.0, 0.0,
   0.0, 0.0, 0.0, 0.0, 0.0, 0.0, 0.0, 0.0,
   0.0, 0.0, 0.0, 0.0, 0.0, 0.0, 0.0, 0.0,
   0.0, 0.0, 0.0, 0.0, 0.0, 0.0, 0.0, 0.0,
   0.0, 0.0, 0.0, 0.0, 0.0, 0.0, 0.0
  ]

set_option maxHeartbeats 1600000 in
/-- Entries 1848 to 2078 of the baseline table. -/
def optimalChunk8 : List ℚ :=
  [0.0, 0.0, 0.0, 0.0, 0.0, 0.0, 0.0, 0.0,
   0.0, 0.0, 0.0, 0.0, 0.0, 0.0, 0.0, 0.0,
   0.0, 0.0, 0.0, 0.0, 0.0, 0.0, 0.0, 0.0,
   0.0, 0.0, 0.0, 0.0, 0.0, 0.0, 0.0, 0.0,
   0.0, 0.0, 0.0, 0.0, 0.0, 0.0, 0.0, 0.0,
   0.0, 0.0, 0.0, 0.0, 0.0, 0.0, 0.0, 0.0,
   0.0, 0.0, 0.0, 0.0, 0.0, 0.0, 0.0, 0.0,
   0.0, 0.0, 0.0, 0.0, 0.0, 0.0, 0.0, 0.0,
   0.0, 0.0, 0.0, 0.0, 0.0, 0.0, 0.0, 0.0,
   0.0, 0.0, 0.0, 0.0, 0.0, 0.0, 0.0, 0.0,
   0.0, 0.0, 0.0, 0.0, 0.0, 0.0, 0.0, 0.0,
   0.0, 0.0, 0.0, 0.0, 0.0, 0.0, 0.0, 0.0,
   0.0, 0.0, 0.0, 0.0, 0.0, 0.0, 0.0, 0.0,
   0.0, 0.0, 0.0, 0.0, 0.0, 0.0, 0.0, 0.0,
   0.0, 0.0, 0.0, 0.0, 0.0, 0.0, 0.0, 0.0,
   0.0, 0.0, 0.0, 0.0, 0.0, 0.0, 0.0, 0.0,
   0.0, 0.0, 0.0, 0.0, 0.0, 0.0, 0.0, 0.0,
   0.0, 0.0, 0.0, 0.0, 0.0, 0.0, 0.0, 0.0,
   0.0, 0.0, 0.0, 0.0, 0.0, 0.0, 0.0, 0.0,
   0.0, 0.0, 0.0, 0.0, 0.0, 0.0, 0.0, 0.0,
   0.0, 0.0, 0.0, 0.0, 0.0, 0.0, 0.0, 0.0,
   0.0, 0.0, 0.0, 0.0, 0.0, 0.0, 0.0, 0.0,
   0.0, 0.0, 0.0, 0.0, 0.0, 0.0, 0.0, 0.0,
   0.0, 0.0, 0.0, 0.0, 0.0, 0.0, 0.0, 0.0,
   0.0, 0.0, 0.0, 0.0, 0.0, 0.0, 0.0, 0.0,
   0.0, 0.0, 0.0, 0.0, 0.0, 0.0, 0.0, 0.0,
   0.0, 0.0, 0.0, 0.0, 0.0, 0.0, 0.0, 0.0,
   0.0, 0.0, 0.0, 0.0, 0.0, 0.0, 0.0, 0.0,
   0.0, 0.0, 0.0, 0.0, 0.0, 0.0, 0.0
  ]

set_option maxHeartbeats 1600000 in
/-- Entries 2079 to 2309 of the baseline table. -/
def optimalChunk9 : List ℚ :=
  [0.0, 0.0, 0.0, 0.0, 0.0, 0.0, 0.0, 0.0,
   0.0, 0.0, 0.0, 0.0, 0.0, 0.0, 0.0, 0.0,
   0.0, 0.0, 0.0, 0.0, 0.0, 0.0, 0.0, 0.0,
   0.0, 0.0, 0.0, 0.0, 0.0, 0.0, 0.0, 0.0,
   0.0, 0.0, 0.0, 0.0, 0.0, 0.0, 0.0, 0.0,
   0.0, 0.0, 0.0, 0.0, 0.0, 0.0, 0.0, 0.0,
   0.0, 0.0, 0.0, 0.0, 0.0, 0.0, 0.0, 0.0,
   0.0, 0.0, 0.0, 0.0, 0.0, 0.0, 0.0, 0.0,
   0.3168706937083459, 0.31727155110871075, 0.3171743578086117, 0.3175906235606465, 0.3171138960758811, 0.31783995656555397, 0.3174790858326245, 0.31594987619235393,
   0.31709862805375544, 0.32060013654605163, 0.3233732559575261, 0.3164049983979489, 0.32208054306944117, 0.3165370149741887, 0.32078045308979136, 0.31507517467594726,
   0.4063164174652234, 0.5769814061962328, 0.7222632752540836, 0.8497623283851594, 0.9535849810265585, 0.0, 0.0, 0.0,
   0.0, 0.0, 0.0, 0.0, 0.0, 0.0, 0.0, 0.0,
   0.0, 0.0, 0.0, 0.0, 0.0, 0.0, 0.0, 0.0,
   0.0, 0.25662148322602873, 0.25524284089066335, 0.2557964717491214, 0.255786602950473, 0.25545180177758176, 0.25485154366743284, 0.25585445486222624,
   0.2559006702019785, 0.25488714372870336, 0.2509306717021849, 0.25752343364578245, 0.24248642124321151, 0.2521696207181575, 0.2551437695963584, 0.2564587271581569,
   0.2547692943084328, 0.35160616252039495, 0.5328122435063714, 0.6971528798048026, 0.8329829015749606, 0.9489739102768059, 0.0, 0.0,
   0.0, 0.0, 0.0, 0.0, 0.0, 0.0, 0.0, 0.0,
   0.0, 0.0, 0.0, 0.0, 0.0, 0.0, 0.0, 0.0,
   0.0, 0.0, 0.20044513271503547, 0.20111479841889957, 0.1991708483612874, 0.20144575148794047, 0.2010188488005519, 0.20137733540680147,
   0.20186688204607922, 0.19982519904093596, 0.20145460358835873, 0.2010686164229486, 0.20215701028342117, 0.21324717285945002, 0.1999008993956, 0.20211266369927114,
   0.2006775940638971, 0.20160160401971455, 0.30703995852312815, 0.4936511247211132, 0.6683448182503812, 0.8154756011432122, 0.9422406967537619, 0.0,
   0.0, 0.0, 0.0, 0.0, 0.0, 0.0, 0.0, 0.0,
   0.0, 0.0, 0.0, 0.0, 0.0, 0.0, 0.0, 0.0,
   0.0, 0.0, 0.0, 0.1510017796404597, 0.1528746493357407, 0.15147015656416285, 0.15308361465508738, 0.15221660890167574,
   0.14996200452038325, 0.15196657803894836, 0.15260705525880822, 0.15206524611641387, 0.15032656411720555, 0.15016282716198395, 0.15667936727860468, 0.15147767031431406,
   0.1504201827693027, 0.14973573252568334, 0.15166264097488508, 0.2602925848719479, 0.4610191967668689, 0.6427047084382823, 0.7998067939709153, 0.9353223948194271,
   0.0, 0.0, 0.0, 0.0, 0.0, 0.0, 0.0, 0.0,
   0.0, 0.0, 0.0, 0.0, 0.0, 0.0, 0.0, 0.0,
   0.0, 0.0, 0.0, 0.0, 0.10748442229990916, 0.10741130673487607, 0.10657116440721406
  ]

set_option maxHeartbeats 1600000 in
/-- Entries 2310 to 2540 of the baseline table. -/
def optimalChunk10 : List ℚ :=
  [0.10783988215456847, 0.10765978875241491, 0.10641063686568766, 0.10751215454213317, 0.10765242570034726, 0.1069262412525317, 0.11110717197858636, 0.1197799959258502,
   0.08450289527922275, 0.09508389755666777, 0.10776001437039734, 0.10693205591588073, 0.10564278976862908, 0.2208740027110332, 0.4271774208948383, 0.6206821438252732,
   0.7875788149917154, 0.9329004329004278, 0.0, 0.0, 0.0, 0.0, 0.0, 0.0,
   0.0, 0.0, 0.0, 0.0, 0.0, 0.0, 0.0, 0.0,
   0.0, 0.0, 0.0, 0.0, 0.0, 0.0, 0.0698649899955982, 0.06886966805001381,
   0.07019714127735399, 0.06783967377704865, 0.07080871096615295, 0.06981813545549646, 0.06982330448476157, 0.07055785767140832, 0.06864684865321226, 0.0717938820804786,
   0.05797450084195352, 0.0746526414946229, 0.06520588546628582, 0.07070743067706722, 0.06686082224647191, 0.06765248998241143, 0.18546989557876417, 0.39835483689222234,
   0.5999581470560069, 0.7784472407535921, 0.9276614600642554, 0.0, 0.0, 0.0, 0.0, 0.0,
   0.0, 0.0, 0.0, 0.0, 0.0, 0.0, 0.0, 0.0,
   0.0, 0.0, 0.0, 0.0, 0.0, 0.0, 0.0, -0.0256333644923194,
   -0.026354378549853456, -0.026687781999803477, -0.026163663489201194, -0.026374458849310816, -0.02653535049884668, -0.02647140944926371, -0.025400634007980597, -0.027159119029943068,
   -0.02589552495105952, -0.03620985859653759, -0.03683702989392465, -0.027232580961727156, -0.01923302176306596, -0.026551641504912193, -0.029370306429570545, 0.14770427172101724,
   0.4209621006401787, 0.6115667037412217, 0.7822005796495902, 0.9301553909714897, 0.0, 0.0, 0.0, 0.0,
   0.0, 0.0, 0.0, 0.0, 0.0, 0.0, 0.0, 0.0,
   0.0, 0.0, 0.0, 0.0, 0.0, 0.0, 0.0, 0.0,
   -0.11967703153876463, -0.11956321443635208, -0.11946264609437775, -0.11991061581298706, -0.1186146148267004, -0.12068032104538218, -0.11898122827346212, -0.11904083273663528,
   -0.12295852630845804, -0.12242428374209682, -0.11212121212121211, -0.1206382150732907, -0.11724680874992924, -0.10383584244174139, -0.11904769083722135, -0.12043948515947298,
   0.05136777061260892, 0.3762041093089053, 0.6242304864384036, 0.7883013693963756, 0.933783231083846, 0.0, 0.0, 0.0,
   0.0, 0.0, 0.0, 0.0, 0.0, 0.0, 0.0, 0.0,
   0.0, 0.0, 0.0, 0.0, 0.0, 0.0, 0.0, 0.0,
   0.0, -0.2096854114217828, -0.2100423515543988, -0.20924228618391802, -0.21108751817782284, -0.20928887424369574, -0.2098251628415254, -0.20983648651245793,
   -0.20268521514073087, -0.20699017007333353, -0.20977066260084862, -0.20101464109296496, -0.20890202555854945, -0.22059894606057945, -0.2165551839464881, -0.2176614881439092,
   -0.2083310310858574, -0.04656015195549268, 0.2691673076247886, 0.5759294460990402, 0.7957073831830868, 0.9345634482649406, 0.0, 0.0,
   0.0, 0.0, 0.0, 0.0, 0.0, 0.0, 0.0, 0.0,
   0.0, 0.0, 0.0, 0.0, 0.0, 0.0, 0.0, 0.0,
   0.0, 0.0, -0.29650053704427826, -0.29702139861645266, -0.2970738847754726, -0.29684227184111633, -0.295908233579969, -0.29716210543131866,
   -0.29687932234649017, -0.2971028442177169, -0.2949186735594533, -0.2979404887735794, -0.28819212808539174, -0.29614884627884625, -0.2999677106877632, -0.2824929178470267,
   -0.29098185491704526, -0.29026829952322786, -0.1382409968349895, 0.16811610130521104, 0.46322344067645704, 0.7391787683281347, 0.9380040446383967, 0.0,
   0.0, 0.0, 0.0, 0.0, 0.0, 0.0, 0.0
  ]

set_option maxHeartbeats 1600000 in
/-- Entries 2541 to 2771 of the baseline table. -/
def optimalChunk11 : List ℚ :=
  [0.0, 0.0, 0.0, 0.0, 0.0, 0.0, 0.0, 0.0,
   0.0, 0.0, 0.0, 0.0, 0.0, 0.0, 0.0, 0.0,
   0.0, 0.0, 0.0, 0.0, 0.0, 0.0, 0.0, 0.0,
   0.0, 0.0, 0.0, 0.0, 0.0, 0.0, 0.0, 0.0,
   0.0, 0.0, 0.0, 0.0, 0.0, 0.0, 0.0, 0.0,
   0.0, 0.0, 0.0, 0.0, 0.0, 0.0, 0.0, 0.0,
   0.0, 0.0, 0.0, 0.0, 0.0, 0.0, 0.0, 0.0,
   0.0, 0.0, 0.0, 0.0, 0.0, 0.0, 0.0, 0.0,
   0.0, 0.0, 0.0, 0.0, 0.0, 0.0, 0.0, 0.0,
   0.0, 0.0, 0.0, 0.0, 0.0, 0.0, 0.0, 0.0,
   0.0, 0.0, 0.0, 0.0, 0.0, 0.0, 0.0, 0.0,
   0.0, 0.0, 0.0, 0.0, 0.0, 0.0, 0.0, 0.0,
   0.0, 0.0, 0.0, 0.0, 0.0, 0.0, 0.0, 0.0,
   0.0, 0.0, 0.0, 0.0, 0.0, 0.0, 0.0, 0.0,
   0.0, 0.0, 0.0, 0.0, 0.0, 0.0, 0.0, 0.0,
   0.0, 0.0, 0.0, 0.0, 0.0, 0.0, 0.0, 0.0,
   0.0, 0.0, 0.0, 0.0, 0.0, 0.0, 0.0, 0.0,
   0.0, 0.0, 0.0, 0.0, 0.0, 0.0, 0.0, 0.0,
   0.0, 0.0, 0.0, 0.0, 0.0, 0.0, 0.0, 0.0,
   0.0, 0.0, 0.0, 0.0, 0.0, 0.0, 0.0, 0.0,
   0.0, 0.0, 0.0, 0.0, 0.0, 0.0, 0.0, 0.0,
   0.0, 0.0, 0.0, 0.0, 0.0, 0.0, 0.0, 0.0,
   0.0, 0.0, 0.0, 0.0, 0.0, 0.0, 0.0, 0.0,
   0.0, 0.0, 0.0, 0.0, 0.0, 0.0, 0.0, 0.0,
   0.0, 0.0, 0.0, 0.0, 0.0, 0.0, 0.0, 0.0,
   0.0, 0.0, 0.0, 0.0, 0.0, 0.0, 0.0, 0.0,
   0.0, 0.0, 0.0, 0.0, 0.0, 0.0, 0.0, 0.0,
   0.0, 0.0, 0.0, 0.0, 0.0, 0.0, 0.0, 0.0,
   0.0, 0.0, 0.0, 0.0, 0.0, 0.0, 0.0
  ]

set_option maxHeartbeats 1600000 in
/-- Entries 2772 to 3002 of the baseline table. -/
def optimalChunk12 : List ℚ :=
  [0.0, 0.0, 0.0, 0.0, 0.0, 0.0, 0.0, 0.0,
   0.0, 0.0, 0.0, 0.0, 0.0, 0.0, 0.0, 0.0,
   0.0, 0.0, 0.0, 0.0, 0.0, 0.0, 0.0, 0.0,
   0.0, 0.0, 0.0, 0.0, 0.0, 0.0, 0.0, 0.0,
   0.0, 0.0, 0.0, 0.0, 0.0, 0.0, 0.0, 0.0,
   0.0, 0.0, 0.0, 0.0, 0.0, 0.0, 0.0, 0.0,
   0.0, 0.0, 0.0, 0.0, 0.0, 0.0, 0.0, 0.0,
   0.0, 0.0, 0.0, 0.0, 0.0, 0.0, 0.0, 0.0,
   0.0, 0.0, 0.0, 0.0, 0.0, 0.0, 0.0, 0.0,
   0.0, 0.0, 0.0, 0.0, 0.0, 0.0, 0.0, 0.0,
   0.0, 0.0, 0.0, 0.0, 0.0, 0.0, 0.0, 0.0,
   0.0, 0.0, 0.0, 0.0, 0.0, 0.0, 0.0, 0.0,
   0.0, 0.0, 0.0, 0.0, 0.0, 0.0, 0.0, 0.0,
   0.0, 0.0, 0.0, 0.0, 0.0, 0.0, 0.0, 0.0,
   0.0, 0.0, 0.0, 0.0, 0.0, 0.0, 0.0, 0.0,
   0.0, 0.0, 0.0, 0.0, 0.0, 0.0, 0.0, 0.0,
   0.0, 0.0, 0.0, 0.0, 0.0, 0.0, 0.0, 0.0,
   0.0, 0.0, 0.0, 0.0, 0.0, 0.0, 0.0, 0.0,
   0.0, 0.0, 0.0, 0.0, 0.0, 0.0, 0.0, 0.0,
   0.0, 0.0, 0.0, 0.0, 0.0, 0.0, 0.0, 0.0,
   0.0, 0.0, 0.0, 0.0, 0.0, 0.0, 0.0, 0.0,
   0.0, 0.0, 0.0, 0.0, 0.0, 0.0, 0.0, 0.0,
   0.0, 0.0, 0.0, 0.0, 0.0, 0.0, 0.0, 0.0,
   0.0, 0.0, 0.0, 0.0, 0.0, 0.0, 0.0, 0.0,
   0.0, 0.0, 0.0, 0.0, 0.0, 0.0, 0.0, 0.0,
   0.0, 0.0, 0.0, 0.0, 0.0, 0.0, 0.0, 0.0,
   0.0, 0.0, 0.0, 0.0, 0.0, 0.0, 0.0, 0.0,
   0.0, 0.0, 0.0, 0.0, 0.0, 0.0, 0.0, 0.0,
   0.0, 0.0, 0.0, 0.0, 0.0, 0.0, 0.0
  ]

set_option maxHeartbeats 1600000 in
/-- Entries 3003 to 3233 of the baseline table. -/
def optimalChunk13 : List ℚ :=
  [0.0, 0.0, 0.0, 0.0, 0.0, 0.0, 0.0, 0.0,
   0.0, 0.0, 0.0, 0.0, 0.0, 0.0, 0.0, 0.0,
   0.0, 0.0, 0.0, 0.0, 0.0, 0.0, 0.0, 0.0,
   0.0, 0.0, 0.0, 0.0, 0.0, 0.0, 0.0, 0.0,
   0.0, 0.0, 0.0, 0.0, 0.0, 0.0, 0.0, 0.0,
   0.0, 0.0, 0.0, 0.0, 0.0, 0.0, 0.0, 0.0,
   0.0, 0.0, 0.0, 0.0, 0.0, 0.0, 0.0, 0.0,
   0.0, 0.0, 0.0, 0.0, 0.0, 0.0, 0.0, 0.0,
   0.0, 0.0, 0.0, 0.0, 0.0, 0.0, 0.0, 0.0,
   0.0, 0.0, 0.0, 0.0, 0.0, 0.0, 0.0, 0.0,
   0.0, 0.0, 0.0, 0.0, 0.0, 0.0, 0.0, 0.0,
   0.0, 0.0, 0.0, 0.0, 0.0, 0.0, 0.0, 0.0,
   0.0, 0.0, 0.0, 0.0, 0.0, 0.0, 0.0, 0.0,
   0.0, 0.0, 0.0, 0.0, 0.0, 0.0, 0.0, 0.0,
   0.0, 0.0, 0.0, 0.0, 0.0, 0.0, 0.0, 0.0,
   0.0, 0.0, 0.0, 0.0, 0.0, 0.0, 0.0, 0.0,
   0.0, 0.0, 0.0, 0.0, 0.0, 0.0, 0.0, 0.0,
   0.0, 0.0, 0.0, 0.0, 0.0, 0.0, 0.0, 0.0,
   0.0, 0.0, 0.0, 0.0, 0.0, 0.0, 0.0, 0.0,
   0.0, 0.0, 0.0, 0.0, 0.0, 0.0, 0.0, 0.0,
   0.0, 0.0, 0.0, 0.0, 0.0, 0.0, 0.0, 0.0,
   0.0, 0.0, 0.0, 0.0, 0.0, 0.0, 0.0, 0.0,
   0.0, 0.0, 0.0, 0.0, 0.0, 0.0, 0.0, 0.0,
   0.0, 0.0, 0.0, 0.0, 0.0, 0.0, 0.0, 0.0,
   0.0, 0.0, 0.0, 0.0, 0.0, 0.0, 0.0, 0.0,
   0.0, 0.0, 0.0, 0.0, 0.0, 0.0, 0.0, 0.0,
   0.0, 0.0, 0.0, 0.0, 0.0, 0.0, 0.0, 0.0,
   0.0, 0.0, 0.0, 0.0, 0.0, 0.0, 0.0, 0.0,
   0.0, 0.0, 0.0, 0.0, 0.0, 0.0, 0.0
  ]

set_option maxHeartbeats 1600000 in
/-- Entries 3234 to 3361 of the baseline table. -/
def optimalChunk14 : List ℚ :=
  [0.0, 0.0, 0.0, 0.0, 0.0, 0.0, 0.0, 0.0,
   0.0, 0.0, 0.0, 0.0, 0.0, 0.0, 0.0, 0.0,
   0.0, 0.0, 0.0, 0.0, 0.0, 0.0, 0.0, 0.0,
   0.0, 0.0, 0.0, 0.0, 0.0, 0.0, 0.0, 0.0,
   0.0, 0.0, 0.0, 0.0, 0.0, 0.0, 0.0, 0.0,
   0.0, 0.0, 0.0, 0.0, 0.0, 0.0, 0.0, 0.0,
   0.0, 0.0, 0.0, 0.0, 0.0, 0.0, 0.0, 0.0,
   0.0, 0.0, 0.0, 0.0, 0.0, 0.0, 0.0, 0.0,
   0.0, 0.0, 0.0, 0.0, 0.0, 0.0, 0.0, 0.0,
   0.0, 0.0, 0.0, 0.0, 0.0, 0.0, 0.0, 0.0,
   0.0, 0.0, 0.0, 0.0, 0.0, 0.0, 0.0, 0.0,
   0.0, 0.0, 0.0, 0.0, 0.0, 0.0, 0.0, 0.0,
   0.0, 0.0, 0.0, 0.0, 0.0, 0.0, 0.0, 0.0,
   0.0, 0.0, 0.0, 0.0, 0.0, 0.0, 0.0, 0.0,
   0.0, 0.0, 0.0, 0.0, 0.0, 0.0, 0.0, 0.0,
   0.0, 0.0, 0.0, 0.0, 0.0, 0.0, 0.0, 0.0
  ]

/-- The fixed precomputed baseline table of Q::rms_error
(src/easy_21.rs lines 993-4356): 3362 constants, one per Q cell, in the
same flat order as the Q container. -/
def optimal : List ℚ :=
  optimalChunk0 ++ optimalChunk1 ++ optimalChunk2 ++ optimalChunk3 ++ optimalChunk4 ++ optimalChunk5 ++ optimalChunk6 ++ optimalChunk7 ++ optimalChunk8 ++ optimalChunk9 ++ optimalChunk10 ++ optimalChunk11 ++ optimalChunk12 ++ optimalChunk13 ++ optimalChunk14

/-- Q::rms_error (src/easy_21.rs lines 991-4365): the sum of the squared
differences between the stored values of the Q table and the baseline
table (despite the name, neither a mean nor a square root is taken). -/
def rms_error (q : List (ℚ × Int)) : ℚ :=
  (List.zipWith (fun (p : ℚ × Int) vstar => (p.1 - vstar) * (p.1 - vstar)) q optimal).sum

/-- The episode bookkeeping at the end of td_lambda_control
(src/easy_21.rs lines 833-837): bump the episode counter and, when it is
a multiple of 1000, cache Q::rms_error of the current Q table. -/
def tdControlEpisodeFinish (episodes : Int) (q : List (ℚ × Int)) (rms : ℚ) : Int × ℚ :=
  let episodes' := episodes + 1
  (episodes', if episodes' % 1000 = 0 then rms_error q else rms)

/-- The episode bookkeeping at the end of approx_td_lambda_control
(src/easy_21.rs lines 985-989): bump the episode counter and, when it is
a multiple of 1000, store the constant 0.0 in the cached rms_error field;
the recomputation from the weight vector w is commented out in the
source, so w is ignored. -/
def approxEpisodeFinish (episodes : Int) (w : List ℚ) (rms : ℚ) : Int × ℚ :=
  let episodes' := episodes + 1
  (episodes', if episodes' % 1000 = 0 then 0 else rms)

end Easy21

namespace AD

/-- The expression tag of a tape node in the vec module of the autodiff
engine (src/ad.rs lines 152-161).  Operand references are graph-node
identifiers (Nat), mirroring petgraph's NodeIndex; LitVec stores its
constant tensor inline, and Loss stores the expected tensor inline next
to the node identifier of the actual operand. -/
inductive Expr where
  | LitVec (value : List ℚ)
  | AddVec (left right : Nat)
  | MultMat (mat vec : Nat)
  | Sigma (vec : Nat)
  | Relu (vec : Nat)
  | Var (name : String)
  | Loss (expected : List ℚ) (actual : Nat)
deriving DecidableEq, Repr

/-- A tape node: expression tag, forward value z, backward accumulator w
(src/ad.rs lines 163-168). -/
structure Node where
  expr : Expr
  z : List ℚ
  w : List ℚ
deriving DecidableEq, Repr

/-- Node::new (src/ad.rs lines 170-178): fresh node with empty z and w. -/
def Node.new (e : Expr) : Node :=
  { expr := e, z := [], w := [] }

/-- The tape: an append-only node array plus directed edges from each
operand node to its consumer (src/ad.rs lines 205-208). -/
structure Tape where
  nodes : List Node
  edges : List (Nat × Nat)
deriving DecidableEq, Repr

/-- Tape::init (src/ad.rs lines 211-215). -/
def Tape.init : Tape :=
  { nodes := [], edges := [] }

/-- Appending a node to the tape returns the new tape and the fresh
node's identifier, which is its array index. -/
def Tape.addNode (t : Tape) (n : Node) : Tape × Nat :=
  ({ t with nodes := t.nodes ++ [n] }, t.nodes.length)

/-- Appending a directed edge from node a to node b. -/
def Tape.addEdge (t : Tape) (a b : Nat) : Tape :=
  { t with edges := t.edges ++ [(a, b)] }

/-- Tape::lit (src/ad.rs lines 217-219). -/
def Tape.lit (t : Tape) (value : List ℚ) : Tape × Nat :=
  t.addNode (Node.new (Expr.LitVec value))

/-- Tape::add_vec (src/ad.rs lines 221-226). -/
def Tape.add_vec (t : Tape) (left right : Nat) : Tape × Nat :=
  let r := t.addNode (Node.new (Expr.AddVec left right))
  ((r.1.addEdge left r.2).addEdge right r.2, r.2)

/-- Tape::mult_mat (src/ad.rs lines 228-233). -/
def Tape.mult_mat (t : Tape) (mat vec : Nat) : Tape × Nat :=
  let r := t.addNode (Node.new (Expr.MultMat mat vec))
  ((r.1.addEdge mat r.2).addEdge vec r.2, r.2)

/-- Tape::sigma (src/ad.rs lines 235-239). -/
def Tape.sigma (t : Tape) (vec : Nat) : Tape × Nat :=
  let r := t.addNode (Node.new (Expr.Sigma vec))
  (r.1.addEdge vec r.2, r.2)

/-- Tape::relu (src/ad.rs lines 241-245). -/
def Tape.relu (t : Tape) (vec : Nat) : Tape × Nat :=
  let r := t.addNode (Node.new (Expr.Relu vec))
  (r.1.addEdge vec r.2, r.2)

/-- Tape::var (src/ad.rs lines 247-251). -/
def Tape.var (t : Tape) (name : String) : Tape × Nat :=
  t.addNode (Node.new (Expr.Var name))

/-- Tape::loss (src/ad.rs lines 253-259): the expected tensor is stored
inline in the new node's expression, and a single edge is added, from the
actual operand to the new node. -/
def Tape.loss (t : Tape) (expected : List ℚ) (actual : Nat) : Tape × Nat :=
  let r := t.addNode (Node.new (Expr.Loss expected actual))
  (r.1.addEdge actual r.2, r.2)

/-- The graph-node identifiers an expression holds for its operands. -/
def Expr.operandIds : Expr → List Nat
  | Expr.LitVec _ => []
  | Expr.AddVec l r => [l, r]
  | Expr.MultMat m v => [m, v]
  | Expr.Sigma v => [v]
  | Expr.Relu v => [v]
  | Expr.Var _ => []
  | Expr.Loss _ a => [a]

/-- The raw tensor values an expression stores inline instead of a node
identifier. -/
def Expr.inlineValues : Expr → List (List ℚ)
  | Expr.LitVec v => [v]
  | Expr.Loss e _ => [e]
  | _ => []

end AD

open Easy21

/-- Starting state of the run that defeats the bounded-draw claim: both
totals are legal initial totals. -/
def c1State : State :=
  { dealer := 10, player := 10 }

/-- A run of 17 dealer draws alternating Red 5 and Black 5: the dealer
total oscillates between 10 and 5 and never reaches 17 nor busts. -/
def c1Cards : List Card :=
  [ Card.mk 5 CardColor.Red, Card.mk 5 CardColor.Black,
    Card.mk 5 CardColor.Red, Card.mk 5 CardColor.Black,
    Card.mk 5 CardColor.Red, Card.mk 5 CardColor.Black,
    Card.mk 5 CardColor.Red, Card.mk 5 CardColor.Black,
    Card.mk 5 CardColor.Red, Card.mk 5 CardColor.Black,
    Card.mk 5 CardColor.Red, Card.mk 5 CardColor.Black,
    Card.mk 5 CardColor.Red, Card.mk 5 CardColor.Black,
    Card.mk 5 CardColor.Red, Card.mk 5 CardColor.Black,
    Card.mk 5 CardColor.Red ]

/-- A V table whose cell at flat index n stores the rational n, used to
exhibit which cell an out-of-rectangle state silently reads. -/
def c6Table : List ℚ :=
  (List.range 1681).map (fun n => (n : ℚ))

/-- Two concrete recorded episodes: the state with both totals -10 (flat
cell 0) is visited once in each, with terminal rewards 1 and -1. -/
def c4Episodes : List (List (State × Action) × Int) :=
  [([({ dealer := -10, player := -10 }, Action.Hit),
     ({ dealer := -10, player := -9 }, Action.Hit)], 1),
   ([({ dealer := -10, player := -10 }, Action.Stick)], -1)]

/-- The V table produced by running monte_carlo_prediction on the two
episodes of c4Episodes. -/
def c4Final : List (ℚ × Int) :=
  (((V.init ((0 : ℚ), (0 : Int))).set 0 (1, 1)).set 1 (1, 1)).set 0 (0, 2)

/-- The all-zero weight vector of the approximate learner, whose linear
prediction is 0 at every state-action pair. -/
def c7w : List ℚ :=
  List.replicate 36 0

/-- A two-node tape: a Var node (id 0) and a loss node over it (id 1),
mirroring t.loss(expected, actual) after t.var (src/ad.rs lines 247-259). -/
def c9Tape : AD.Tape × Nat :=
  AD.Tape.loss (AD.Tape.var AD.Tape.init "x").1 [2] 0

theorem signum_mem (x : Int) :
    signum x = -1 ∨ signum x = 0 ∨ signum x = 1 := by
  unfold signum
  split
  · right; right; rfl
  · split
    · left; rfl
    · right; left; rfl

theorem dealerLoop_some_spec (cards : List Card) :
    ∀ (player dealer : Int) (smp : Sample),
      dealerLoop player dealer cards = some smp →
      smp.terminal = true ∧ smp.state.player = player ∧
        ((is_bust smp.state.dealer = true ∧ smp.reward = 1) ∨
         (17 ≤ smp.state.dealer ∧ smp.reward = signum (player - smp.state.dealer))) := by
  induction cards with
  | nil =>
    intro player dealer smp h
    unfold dealerLoop at h
    split at h
    · cases h
      refine ⟨rfl, rfl, Or.inr ⟨by assumption, rfl⟩⟩
    · exact absurd h (by simp)
  | cons card rest ih =>
    intro player dealer smp h
    unfold dealerLoop at h
    split at h
    · cases h
      refine ⟨rfl, rfl, Or.inr ⟨by assumption, rfl⟩⟩
    · simp only at h
      split at h
      · cases h
        refine ⟨rfl, rfl, Or.inl ⟨by assumption, rfl⟩⟩
      · exact ih player _ smp h

theorem add_to_black (c : Card) (h : c.color = CardColor.Black) (x : Int) :
    c.add_to x = x + c.value := by
  simp [Card.add_to, h]

theorem dealerLoop_black_isSome (cards : List Card) :
    ∀ dealer : Int, ∀ player : Int,
      (∀ c ∈ cards, c.color = CardColor.Black ∧ 1 ≤ c.value) →
      (17 - dealer : Int) ≤ cards.length →
      (dealerLoop player dealer cards).isSome = true := by
  induction cards with
  | nil =>
    intro dealer player _ hlen
    have h17 : 17 ≤ dealer := by simpa using hlen
    unfold dealerLoop
    simp [h17]
  | cons card rest ih =>
    intro dealer player hall hlen
    unfold dealerLoop
    split
    · simp
    · rename_i hlt
      have hcard := hall card (List.mem_cons_self card rest)
      have hstep : card.add_to dealer = dealer + card.value :=
        add_to_black card hcard.1 dealer
      simp only [hstep]
      split
      · simp
      · apply ih
        · intro c hc
          exact hall c (List.mem_cons_of_mem card hc)
        · have hv := hcard.2
          simp only [List.length_cons] at hlen
          push_cast at hlen ⊢
          omega

/-- C1 counterexample: from the legal starting state dealer 10 / player 10,
a Stick step whose rng produces 17 alternating Red 5 / Black 5 cards has
not terminated after all 17 draws: the dealer total oscillates between 10
and 5, so it is not monotonically non-decreasing and no bound of 17 draws
exists. -/
theorem C1_counterexample :
    (1 ≤ c1State.dealer ∧ c1State.dealer ≤ 10 ∧
     1 ≤ c1State.player ∧ c1State.player ≤ 10) ∧
    c1Cards.length = 17 ∧
    step c1State Action.Stick c1Cards = none := by
  decide

/-- C1 amended: if every card the dealer draws is Black (each adding at
least 1 to the total), a Stick step from any state with dealer total at
least 1 terminates within 16 draws. -/
theorem C1_stick_terminates_black (s : State) (cards : List Card)
    (hd : 1 ≤ s.dealer)
    (hall : ∀ c ∈ cards, c.color = CardColor.Black ∧ 1 ≤ c.value)
    (hlen : 16 ≤ cards.length) :
    (step s Action.Stick cards).isSome = true := by
  have h : (17 - s.dealer : Int) ≤ (cards.length : Int) := by
    have : (16 : Int) ≤ (cards.length : Int) := by exact_mod_cast hlen
    omega
  exact dealerLoop_black_isSome cards s.dealer s.player hall h

/-- C1 witness: a concrete all-Black run of 16 cards from dealer 1. -/
theorem C1_witness :
    (1 ≤ ({ dealer := 1, player := 5 } : State).dealer ∧
     (∀ c ∈ List.replicate 16 (Card.mk 10 CardColor.Black),
        c.color = CardColor.Black ∧ 1 ≤ c.value) ∧
     16 ≤ (List.replicate 16 (Card.mk 10 CardColor.Black)).length) ∧
    (step { dealer := 1, player := 5 } Action.Stick
      (List.replicate 16 (Card.mk 10 CardColor.Black))).isSome = true :=
  ⟨⟨by decide, by decide, by decide⟩,
   C1_stick_terminates_black { dealer := 1, player := 5 }
     (List.replicate 16 (Card.mk 10 CardColor.Black))
     (by decide) (by decide) (by decide)⟩

/-- C2: whenever a Stick step returns a sample, the sample is terminal,
the player total is unchanged, and either the dealer went bust and the
reward is +1, or the dealer total reached at least 17 and the reward is
the sign of player minus dealer; the reward always lies in {-1, 0, 1}. -/
theorem C2_stick_outcome (s : State) (cards : List Card) (smp : Sample)
    (h : step s Action.Stick cards = some smp) :
    smp.terminal = true ∧ smp.state.player = s.player ∧
    ((is_bust smp.state.dealer = true ∧ smp.reward = 1) ∨
     (17 ≤ smp.state.dealer ∧ smp.reward = signum (s.player - smp.state.dealer))) ∧
    (smp.reward = -1 ∨ smp.reward = 0 ∨ smp.reward = 1) := by
  have hspec := dealerLoop_some_spec cards s.player s.dealer smp h
  refine ⟨hspec.1, hspec.2.1, hspec.2.2, ?_⟩
  rcases hspec.2.2 with hb | hs
  · right; right; exact hb.2
  · rw [hs.2]; exact signum_mem _

/-- C2 witness: dealer 10 draws a Black 10, reaches 20, sticks, and loses
to no one: the player total 15 is below 20, so the reward is -1. -/
theorem C2_witness :
    (step { dealer := 10, player := 15 } Action.Stick [Card.mk 10 CardColor.Black] =
      some { state := { dealer := 20, player := 15 }, reward := -1, terminal := true }) ∧
    (({ state := { dealer := 20, player := 15 }, reward := -1, terminal := true } : Sample).terminal = true ∧
     ({ state := { dealer := 20, player := 15 }, reward := -1, terminal := true } : Sample).state.player =
       ({ dealer := 10, player := 15 } : State).player ∧
     ((is_bust ({ state := { dealer := 20, player := 15 }, reward := -1, terminal := true } : Sample).state.dealer = true ∧
       ({ state := { dealer := 20, player := 15 }, reward := -1, terminal := true } : Sample).reward = 1) ∨
      (17 ≤ ({ state := { dealer := 20, player := 15 }, reward := -1, terminal := true } : Sample).state.dealer ∧
       ({ state := { dealer := 20, player := 15 }, reward := -1, terminal := true } : Sample).reward =
         signum (({ dealer := 10, player := 15 } : State).player -
           ({ state := { dealer := 20, player := 15 }, reward := -1, terminal := true } : Sample).state.dealer))) ∧
     (({ state := { dealer := 20, player := 15 }, reward := -1, terminal := true } : Sample).reward = -1 ∨
      ({ state := { dealer := 20, player := 15 }, reward := -1, terminal := true } : Sample).reward = 0 ∨
      ({ state := { dealer := 20, player := 15 }, reward := -1, terminal := true } : Sample).reward = 1)) :=
  ⟨by decide,
   C2_stick_outcome { dealer := 10, player := 15 } [Card.mk 10 CardColor.Black]
     { state := { dealer := 20, player := 15 }, reward := -1, terminal := true }
     (by decide)⟩

/-- C5: is_bust p holds exactly when p is outside 1..=21, and a Hit step
consumes one card, adds it to the player total, and returns reward -1 and
terminal on a bust, reward 0 and non-terminal otherwise. -/
theorem C5_bust_hit (p : Int) (s : State) (c : Card) (cards : List Card) :
    (is_bust p = true ↔ (p < 1 ∨ 21 < p)) ∧
    step s Action.Hit (c :: cards) = some (stepHit s c) ∧
    (stepHit s c).state.player = c.add_to s.player ∧
    (stepHit s c).state.dealer = s.dealer ∧
    (stepHit s c).reward = (if is_bust (c.add_to s.player) then -1 else 0) ∧
    (stepHit s c).terminal = is_bust (c.add_to s.player) := by
  refine ⟨?_, rfl, rfl, rfl, rfl, rfl⟩
  unfold is_bust
  simp only [Bool.not_eq_true', Bool.and_eq_false_iff, decide_eq_false_iff_not, not_le]

/-- C8: Card::draw keeps the sampled value, its color is Red exactly when
the uniform float is below 1/3, and Card::add_to adds the value for a
Black card and subtracts it for a Red card. -/
theorem C8_card_draw (v : Int) (u : ℚ) (x : Int) :
    (Card.draw v u).value = v ∧
    ((Card.draw v u).color = CardColor.Red ↔ u < 1 / 3) ∧
    (Card.mk v CardColor.Black).add_to x = x + v ∧
    (Card.mk v CardColor.Red).add_to x = x - v := by
  refine ⟨rfl, ?_, ?_, ?_⟩
  · unfold Card.draw
    split
    · simpa using ‹u < 1 / 3›
    · rename_i hge
      constructor
      · intro hcol
        exact absurd hcol (by simp)
      · intro hu
        exact absurd hu hge
  · show x + v * 1 = x + v
    ring
  · show x + v * (-1) = x - v
    ring

/-- C10: the initial state takes the dealer total from the value of the
first drawn card and the player total from the value of the second; card
colors are ignored, so for value samples in 1..=10 both totals lie in
[1, 10] and are never negative. -/
theorem C10_init (v1 v2 : Int) (u1 u2 u1' u2' : ℚ)
    (h1 : 1 ≤ v1) (h2 : v1 ≤ 10) (h3 : 1 ≤ v2) (h4 : v2 ≤ 10) :
    (State.init v1 u1 v2 u2).dealer = (Card.draw v1 u1).value ∧
    (State.init v1 u1 v2 u2).player = (Card.draw v2 u2).value ∧
    (State.init v1 u1 v2 u2).dealer = v1 ∧
    (State.init v1 u1 v2 u2).player = v2 ∧
    1 ≤ (State.init v1 u1 v2 u2).dealer ∧ (State.init v1 u1 v2 u2).dealer ≤ 10 ∧
    1 ≤ (State.init v1 u1 v2 u2).player ∧ (State.init v1 u1 v2 u2).player ≤ 10 ∧
    State.init v1 u1 v2 u2 = State.init v1 u1' v2 u2' :=
  ⟨rfl, rfl, rfl, rfl, h1, h2, h3, h4, rfl⟩

/-- C10 witness: concrete draws of values 3 and 7 with two different pairs
of color samples. -/
theorem C10_witness :
    ((1 : Int) ≤ 3 ∧ (3 : Int) ≤ 10 ∧ (1 : Int) ≤ 7 ∧ (7 : Int) ≤ 10) ∧
    ((State.init 3 (1/2) 7 0).dealer = (Card.draw 3 (1/2)).value ∧
     (State.init 3 (1/2) 7 0).player = (Card.draw 7 0).value ∧
     (State.init 3 (1/2) 7 0).dealer = 3 ∧
     (State.init 3 (1/2) 7 0).player = 7 ∧
     1 ≤ (State.init 3 (1/2) 7 0).dealer ∧ (State.init 3 (1/2) 7 0).dealer ≤ 10 ∧
     1 ≤ (State.init 3 (1/2) 7 0).player ∧ (State.init 3 (1/2) 7 0).player ≤ 10 ∧
     State.init 3 (1/2) 7 0 = State.init 3 (2/3) 7 (1/4)) :=
  ⟨⟨by decide, by decide, by decide, by decide⟩,
   C10_init 3 7 (1/2) 0 (2/3) (1/4) (by decide) (by decide) (by decide) (by decide)⟩

theorem getElem?_isSome_iff (l : List α) (i : ℕ) :
    l[i]?.isSome = true ↔ i < l.length := by
  rw [Option.isSome_iff_exists]
  constructor
  · rintro ⟨a, ha⟩
    exact (List.getElem?_eq_some.mp ha).1
  · intro h
    exact ⟨l[i], List.getElem?_eq_some.mpr ⟨h, rfl⟩⟩

theorem vecGet_isSome_iff (l : List α) (idx : Int) :
    (vecGet l idx).isSome = true ↔ 0 ≤ idx ∧ idx.toNat < l.length := by
  unfold vecGet
  split
  · rename_i hneg
    simp only [Option.isSome_none, Bool.false_eq_true, false_iff, not_and]
    intro h
    omega
  · rename_i hpos
    rw [getElem?_isSome_iff]
    constructor
    · intro h
      exact ⟨by omega, h⟩
    · intro h
      exact h.2

theorem V.index_eq (s : State) :
    V.index s = (s.dealer + 10) * 41 + (s.player + 10) := by
  show 0 * 41 * 41 + (s.dealer + 10) * 41 + (s.player + 10) = _
  ring

theorem Q.index_hit_eq (s : State) :
    Q.index s Action.Hit = (s.dealer + 10) * 41 + (s.player + 10) := by
  show 0 * 41 * 41 + (s.dealer + 10) * 41 + (s.player + 10) = _
  ring

theorem Q.index_stick_eq (s : State) :
    Q.index s Action.Stick = 1681 + (s.dealer + 10) * 41 + (s.player + 10) := by
  show 1 * 41 * 41 + (s.dealer + 10) * 41 + (s.player + 10) = _
  ring

/-- C6 amended: on tables of the constructed sizes, V::get and Q::get
fault (return none) exactly when the flat encoded index leaves the
backing array, and within the encoded rectangle of totals the encoding is
injective, so no two in-rectangle states share a cell.  Outside the
rectangle the per-axis bounds are not validated, so an out-of-rectangle
state whose flat index stays in range silently reads another state's
cell (see the counterexample). -/
theorem C6_index_bounds (s t : State) (a : Action) (tabV tabQ : List ℚ)
    (hV : tabV.length = 1681) (hQ : tabQ.length = 3362) :
    ((V.get tabV s).isSome = true ↔ (0 ≤ V.index s ∧ V.index s < 1681)) ∧
    ((Q.get tabQ s a).isSome = true ↔ (0 ≤ Q.index s a ∧ Q.index s a < 3362)) ∧
    (inRect s → inRect t → V.index s = V.index t → s = t) := by
  refine ⟨?_, ?_, ?_⟩
  · rw [V.get, vecGet_isSome_iff, hV]
    constructor
    · intro h
      exact ⟨h.1, by omega⟩
    · intro h
      exact ⟨h.1, by omega⟩
  · rw [Q.get, vecGet_isSome_iff, hQ]
    constructor
    · intro h
      exact ⟨h.1, by omega⟩
    · intro h
      exact ⟨h.1, by omega⟩
  · intro hs ht heq
    rw [V.index_eq, V.index_eq] at heq
    obtain ⟨hs1, hs2, hs3, hs4⟩ := hs
    obtain ⟨ht1, ht2, ht3, ht4⟩ := ht
    cases s with
    | mk ds ps =>
      cases t with
      | mk dt pt =>
        simp only at heq hs1 hs2 hs3 hs4 ht1 ht2 ht3 ht4
        have hd : ds = dt := by omega
        have hp : ps = pt := by omega
        rw [hd, hp]

/-- C6 witness: in-rectangle states on freshly constructed tables. -/
theorem C6_witness :
    ((V.init (0 : ℚ)).length = 1681 ∧ (Q.init (0 : ℚ)).length = 3362) ∧
    (((V.get (V.init (0 : ℚ)) { dealer := 1, player := 1 }).isSome = true ↔
        (0 ≤ V.index { dealer := 1, player := 1 } ∧
         V.index { dealer := 1, player := 1 } < 1681)) ∧
     ((Q.get (Q.init (0 : ℚ)) { dealer := 1, player := 1 } Action.Hit).isSome = true ↔
        (0 ≤ Q.index { dealer := 1, player := 1 } Action.Hit ∧
         Q.index { dealer := 1, player := 1 } Action.Hit < 3362)) ∧
     (inRect { dealer := 1, player := 1 } → inRect { dealer := 2, player := 2 } →
        V.index { dealer := 1, player := 1 } = V.index { dealer := 2, player := 2 } →
        ({ dealer := 1, player := 1 } : State) = { dealer := 2, player := 2 })) :=
  ⟨⟨by simp only [V.init, List.length_replicate]; rfl, by simp only [Q.init, List.length_replicate]; rfl⟩,
   C6_index_bounds { dealer := 1, player := 1 } { dealer := 2, player := 2 }
     Action.Hit (V.init (0 : ℚ)) (Q.init (0 : ℚ))
     (by simp only [V.init, List.length_replicate]; rfl) (by simp only [Q.init, List.length_replicate]; rfl)⟩

set_option maxRecDepth 40000 in
/-- C6 counterexample: the state with player total 31 and dealer total 1
(reachable by hitting a Black 10 on a player total of 21) lies outside
the encoded rectangle, yet V::get does not fault on it: its flat index
492 is still inside the array, and it silently reads the cell of the
different state with player total -10 and dealer total 2. -/
theorem C6_counterexample :
    (¬ inRect { dealer := 1, player := 31 }) ∧
    ({ dealer := 1, player := 31 } : State) ≠ { dealer := 2, player := -10 } ∧
    inRect { dealer := 2, player := -10 } ∧
    V.index { dealer := 1, player := 31 } = V.index { dealer := 2, player := -10 } ∧
    c6Table.length = 1681 ∧
    V.get c6Table { dealer := 1, player := 31 } = some 492 ∧
    V.get c6Table { dealer := 2, player := -10 } = some 492 ∧
    (V.get c6Table { dealer := 1, player := 31 }).isSome = true := by
  decide

theorem vecUpdate_some_elim (l l' : List α) (idx : Int) (f : α → α)
    (h : vecUpdate l idx f = some l') :
    0 ≤ idx ∧ ∃ a, l[idx.toNat]? = some a ∧ l' = l.set idx.toNat (f a) := by
  unfold vecUpdate at h
  split at h
  · exact absurd h (by simp)
  · rename_i hpos
    refine ⟨by omega, ?_⟩
    cases hget : l[idx.toNat]? with
    | none => rw [hget] at h; exact absurd h (by simp)
    | some a =>
      rw [hget] at h
      exact ⟨a, rfl, (Option.some.inj h).symm⟩

theorem vecUpdate_get_same (l l' : List α) (idx : Int) (f : α → α)
    (h : vecUpdate l idx f = some l') :
    l'[idx.toNat]? = Option.map f l[idx.toNat]? := by
  obtain ⟨_, a, hget, hset⟩ := vecUpdate_some_elim l l' idx f h
  rw [hset, hget, List.getElem?_set]
  have hlt : idx.toNat < l.length := (List.getElem?_eq_some.mp hget).1
  simp [hlt]

theorem vecUpdate_get_other (l l' : List α) (idx : Int) (f : α → α) (j : ℕ)
    (h : vecUpdate l idx f = some l') (hj : j ≠ idx.toNat) :
    l'[j]? = l[j]? := by
  obtain ⟨_, a, hget, hset⟩ := vecUpdate_some_elim l l' idx f h
  rw [hset]
  exact List.getElem?_set_ne (fun hcontra => hj hcontra.symm)

/-- C3: in one loop iteration of td_lambda_prediction, every eligibility
trace is decayed by lambda with the current state's trace then bumped by
one, and every cell of V moves by alpha(cell) * TDerror * trace(cell)
where TDerror = reward + V(next) - V(current) and
alpha(cell) = 1/(10 + visits(cell)) uses the cell's visit count from
before the step; only the current state's visit count is bumped. -/
theorem C3_td_step (lambda : ℚ) (state next_state : State) (reward : Int)
    (traces : List ℚ) (v : List (ℚ × Int))
    (traces2 : List ℚ) (v2 : List (ℚ × Int))
    (hrun : tdStepUpdate lambda state next_state reward traces v = some (traces2, v2))
    (i : ℕ) (e : ℚ) (p pn ps : ℚ × Int)
    (he : traces[i]? = some e) (hp : v[i]? = some p)
    (hn : V.get v next_state = some pn) (hs : V.get v state = some ps) :
    traces2[i]? = some (e * lambda + (if i = (V.index state).toNat then 1 else 0)) ∧
    v2[i]? = some
      (p.1 + 1 / (10 + (p.2 : ℚ)) * ((reward : ℚ) + pn.1 - ps.1) *
         (e * lambda + (if i = (V.index state).toNat then 1 else 0)),
       p.2 + (if i = (V.index state).toNat then 1 else 0)) := by
  unfold tdStepUpdate at hrun
  rw [hn, hs] at hrun
  cases hu1 : V.update (V.map traces (fun x => x * lambda)) state (fun x => x + 1) with
  | none =>
    rw [hu1] at hrun
    exact absurd hrun (by simp)
  | some tr2 =>
    rw [hu1] at hrun
    dsimp only at hrun
    cases hu2 : V.update
        (V.zip_with v tr2 (fun p' e' =>
          (p'.1 + 1 / (10 + (p'.2 : ℚ)) * ((reward : ℚ) + pn.1 - ps.1) * e', p'.2)))
        state (fun p' => (p'.1, p'.2 + 1)) with
    | none =>
      rw [hu2] at hrun
      exact absurd hrun (by simp)
    | some v2' =>
      rw [hu2] at hrun
      have hpair := Option.some.inj hrun
      obtain ⟨h1, h2⟩ := Prod.ext_iff.mp hpair
      dsimp only at h1 h2
      rw [← h1, ← h2]
      have htr1 : (V.map traces (fun x => x * lambda))[i]? = some (e * lambda) := by
        rw [V.map, List.getElem?_map, he]
        rfl
      unfold V.update at hu1 hu2
      have htr2 : tr2[i]? = some (e * lambda + (if i = (V.index state).toNat then 1 else 0)) := by
        by_cases hij : i = (V.index state).toNat
        · rw [if_pos hij, hij]
          rw [vecUpdate_get_same _ _ _ _ hu1]
          rw [hij] at htr1
          rw [htr1]
          rfl
        · rw [if_neg hij, vecUpdate_get_other _ _ _ _ i hu1 hij, htr1, add_zero]
      refine ⟨htr2, ?_⟩
      have hv1 : (V.zip_with v tr2 (fun p' e' =>
          (p'.1 + 1 / (10 + (p'.2 : ℚ)) * ((reward : ℚ) + pn.1 - ps.1) * e', p'.2)))[i]? =
          some (p.1 + 1 / (10 + (p.2 : ℚ)) * ((reward : ℚ) + pn.1 - ps.1) *
              (e * lambda + (if i = (V.index state).toNat then 1 else 0)), p.2) := by
        rw [V.zip_with, List.getElem?_zipWith', hp, htr2]
        rfl
      by_cases hij : i = (V.index state).toNat
      · rw [hij] at hv1 ⊢
        rw [vecUpdate_get_same _ _ _ _ hu2, hv1]
        simp
      · rw [vecUpdate_get_other _ _ _ _ i hu2 hij, hv1]
        simp [hij]

theorem V.index_bounds_of_inRect (s : State) (h : inRect s) :
    0 ≤ V.index s ∧ V.index s < 1681 := by
  obtain ⟨h1, h2, h3, h4⟩ := h
  rw [V.index_eq]
  omega

theorem V.index_inj_rect (s t : State) (hs : inRect s) (ht : inRect t)
    (heq : V.index s = V.index t) : s = t := by
  obtain ⟨hs1, hs2, hs3, hs4⟩ := hs
  obtain ⟨ht1, ht2, ht3, ht4⟩ := ht
  rw [V.index_eq, V.index_eq] at heq
  cases s with
  | mk ds ps =>
    cases t with
    | mk dt pt =>
      simp only at heq hs1 hs2 hs3 hs4 ht1 ht2 ht3 ht4
      have hd : ds = dt := by omega
      have hp : ps = pt := by omega
      rw [hd, hp]

theorem mcEpisodeUpdate_getElem (tr : List (State × Action)) :
    ∀ (v v' : List (ℚ × Int)) (reward : Int),
      mcEpisodeUpdate v tr reward = some v' → ∀ j : ℕ,
      v'[j]? = Option.map
        (fun q => mcFold q ((tr.filter (fun sa => V.index sa.1 == (j : Int))).map
          (fun _ => reward)))
        v[j]? := by
  induction tr with
  | nil =>
    intro v v' reward h j
    unfold mcEpisodeUpdate at h
    cases Option.some.inj h
    simp [mcFold]
  | cons sa rest ih =>
    intro v v' reward h j
    unfold mcEpisodeUpdate at h
    cases hu : V.update v sa.1 (fun p => mcValueUpdate p reward) with
    | none =>
      rw [hu] at h
      exact absurd h (by simp)
    | some vmid =>
      rw [hu] at h
      have hrec := ih vmid v' reward h j
      unfold V.update at hu
      obtain ⟨hnn, a, hget, hset⟩ := vecUpdate_some_elim _ _ _ _ hu
      by_cases hidx : V.index sa.1 = (j : Int)
      · have hjn : (V.index sa.1).toNat = j := by omega
        have hmid : vmid[j]? = Option.map (fun q => mcValueUpdate q reward) v[j]? := by
          rw [← hjn]
          exact vecUpdate_get_same _ _ _ _ hu
        rw [hrec, hmid, Option.map_map]
        rw [List.filter_cons_of_pos (by simpa using hidx), List.map_cons]
        cases v[j]? with
        | none => rfl
        | some q =>
          simp only [Option.map_some', Function.comp]
          rw [mcFold, mcFold, List.foldl_cons]
      · have hjn : j ≠ (V.index sa.1).toNat := by omega
        have hmid : vmid[j]? = v[j]? :=
          vecUpdate_get_other _ _ _ _ j hu hjn
        rw [hrec, hmid, List.filter_cons_of_neg (by simpa using hidx)]

theorem mcRun_getElem (eps : List (List (State × Action) × Int)) :
    ∀ (v v' : List (ℚ × Int)), mcRun v eps = some v' → ∀ j : ℕ,
      v'[j]? = Option.map (fun q => mcFold q (idxRewards j eps)) v[j]? := by
  induction eps with
  | nil =>
    intro v v' h j
    cases h
    simp [mcFold, idxRewards]
  | cons ep rest ih =>
    intro v v' h j
    unfold mcRun at h
    cases hu : mcEpisodeUpdate v ep.1 ep.2 with
    | none =>
      rw [hu] at h
      exact absurd h (by simp)
    | some vmid =>
      rw [hu] at h
      have hrec := ih vmid v' h j
      have hep := mcEpisodeUpdate_getElem ep.1 v vmid ep.2 hu j
      rw [hrec, hep, Option.map_map]
      simp only [idxRewards, List.flatMap_cons]
      cases v[j]? with
      | none => rfl
      | some q =>
        simp [mcFold, Function.comp, List.foldl_append]

theorem mcFold_mean (rs : List Int) :
    mcFold ((0 : ℚ), (0 : Int)) rs =
      ((rs.map (fun r : Int => (r : ℚ))).sum / (rs.length : ℚ), (rs.length : Int)) := by
  induction rs using List.reverseRecOn with
  | nil => simp [mcFold]
  | append_singleton rs r ih =>
    have hfold : mcFold ((0 : ℚ), (0 : Int)) (rs ++ [r]) =
        mcValueUpdate (mcFold ((0 : ℚ), (0 : Int)) rs) r := by
      rw [mcFold, List.foldl_append, List.foldl_cons, List.foldl_nil]
      rfl
    rw [hfold, ih]
    rcases Nat.eq_zero_or_pos rs.length with hn | hn
    · have hrs : rs = [] := List.length_eq_zero.mp hn
      subst hrs
      unfold mcValueUpdate
      norm_num
    · have h0 : ((rs.length : ℚ)) ≠ 0 := Nat.cast_ne_zero.mpr (by omega)
      have h1 : ((rs.length : ℚ)) + 1 ≠ 0 := by positivity
      have hsum : ((rs ++ [r]).map (fun x : Int => (x : ℚ))).sum =
          (rs.map (fun x : Int => (x : ℚ))).sum + (r : ℚ) := by
        rw [List.map_append, List.sum_append]
        simp
      have hlen : ((rs ++ [r]).length) = rs.length + 1 := by simp
      rw [hsum, hlen]
      unfold mcValueUpdate
      rw [Prod.mk.injEq]
      refine ⟨?_, ?_⟩
      · push_cast
        field_simp
        ring
      · push_cast
        ring

theorem idxRewards_eq_visitRewards (s : State) (hs : inRect s)
    (episodes : List (List (State × Action) × Int)) :
    (∀ ep ∈ episodes, ∀ sa ∈ ep.1, inRect sa.1) →
    idxRewards (V.index s).toNat episodes = visitRewards s episodes := by
  induction episodes with
  | nil =>
    intro _
    rfl
  | cons ep rest ih =>
    intro hrect
    simp only [idxRewards, visitRewards, List.flatMap_cons] at ih ⊢
    congr 1
    · congr 1
      apply List.filter_congr
      intro sa hsa
      have hin := hrect ep (List.mem_cons_self ep rest) sa hsa
      rw [Int.toNat_of_nonneg (V.index_bounds_of_inRect s hs).1]
      by_cases heq : sa.1 = s
      · simp [heq]
      · have hne : V.index sa.1 ≠ V.index s :=
          fun hc => heq (V.index_inj_rect sa.1 s hin hs hc)
        simp [heq, hne]
    · exact ih (fun ep' hep' sa hsa => hrect ep' (List.mem_cons_of_mem ep hep') sa hsa)

/-- C4: after any sequence of monte_carlo_prediction episodes starting
from the freshly constructed V table, the value stored at an
in-rectangle state s is the arithmetic mean of the terminal rewards of
the visits of s, one reward per recorded visit, and the stored visit
count is the number of those visits; the mean depends only on the sum
and the count, so the visit order is irrelevant. -/
theorem C4_mc_mean (episodes : List (List (State × Action) × Int))
    (v' : List (ℚ × Int)) (s : State)
    (hrect : ∀ ep ∈ episodes, ∀ sa ∈ ep.1, inRect sa.1)
    (hs : inRect s)
    (hrun : mcRun (V.init ((0 : ℚ), (0 : Int))) episodes = some v') :
    V.get v' s = some
      (((visitRewards s episodes).map (fun r : Int => (r : ℚ))).sum /
         ((visitRewards s episodes).length : ℚ),
       ((visitRewards s episodes).length : Int)) := by
  have hb := V.index_bounds_of_inRect s hs
  have hcell := mcRun_getElem episodes _ v' hrun (V.index s).toNat
  have hsize : cube_size V.MAX = 1681 := by decide
  have hinit : (V.init ((0 : ℚ), (0 : Int)))[(V.index s).toNat]? = some (0, 0) := by
    rw [V.init, List.getElem?_replicate, if_pos]
    rw [hsize]
    omega
  rw [hinit] at hcell
  rw [idxRewards_eq_visitRewards s hs episodes hrect] at hcell
  simp only [Option.map_some'] at hcell
  rw [mcFold_mean] at hcell
  rw [V.get, vecGet, if_neg (by omega)]
  exact hcell

/-- C3 witness: a concrete two-cell table, stepping from the state at
flat cell 0 to the state at flat cell 1 with reward 1 and lambda 1/2. -/
theorem C3_witness :
    (tdStepUpdate (1/2) { dealer := -10, player := -10 } { dealer := -10, player := -9 } 1
        [0, 0] [((0 : ℚ), (0 : Int)), ((0 : ℚ), (0 : Int))] =
      some ([1, 0], [((1/10 : ℚ), (1 : Int)), ((0 : ℚ), (0 : Int))]) ∧
     ([(0 : ℚ), 0] : List ℚ)[0]? = some 0 ∧
     ([((0 : ℚ), (0 : Int)), ((0 : ℚ), (0 : Int))] : List (ℚ × Int))[0]? = some (0, 0) ∧
     V.get [((0 : ℚ), (0 : Int)), ((0 : ℚ), (0 : Int))] { dealer := -10, player := -9 } =
       some (0, 0) ∧
     V.get [((0 : ℚ), (0 : Int)), ((0 : ℚ), (0 : Int))] { dealer := -10, player := -10 } =
       some (0, 0)) ∧
    (([(1 : ℚ), 0] : List ℚ)[0]? =
      some (0 * (1/2) +
        (if 0 = (V.index { dealer := -10, player := -10 }).toNat then 1 else 0)) ∧
     ([((1/10 : ℚ), (1 : Int)), ((0 : ℚ), (0 : Int))] : List (ℚ × Int))[0]? =
      some ((0 : ℚ) + 1 / (10 + ((0 : Int) : ℚ)) * (((1 : Int) : ℚ) + (0 : ℚ) - (0 : ℚ)) *
          (0 * (1/2) +
            (if 0 = (V.index { dealer := -10, player := -10 }).toNat then 1 else 0)),
        (0 : Int) +
          (if 0 = (V.index { dealer := -10, player := -10 }).toNat then 1 else 0))) :=
  ⟨⟨by norm_num [tdStepUpdate, V.map, V.update, V.get, V.zip_with, vecUpdate, vecGet,
       V.index, cube_index, V.MAX, mcValueUpdate],
    by norm_num, by norm_num,
    by norm_num [V.get, vecGet, V.index, cube_index, V.MAX],
    by norm_num [V.get, vecGet, V.index, cube_index, V.MAX]⟩,
   C3_td_step (1/2) { dealer := -10, player := -10 } { dealer := -10, player := -9 } 1
     [0, 0] [((0 : ℚ), (0 : Int)), ((0 : ℚ), (0 : Int))]
     [1, 0] [((1/10 : ℚ), (1 : Int)), ((0 : ℚ), (0 : Int))]
     (by norm_num [tdStepUpdate, V.map, V.update, V.get, V.zip_with, vecUpdate, vecGet,
       V.index, cube_index, V.MAX, mcValueUpdate])
     0 0 ((0 : ℚ), (0 : Int)) ((0 : ℚ), (0 : Int)) ((0 : ℚ), (0 : Int))
     (by norm_num) (by norm_num)
     (by norm_num [V.get, vecGet, V.index, cube_index, V.MAX])
     (by norm_num [V.get, vecGet, V.index, cube_index, V.MAX])⟩

set_option maxRecDepth 100000 in
/-- C4 witness: two concrete episodes visiting the cell-0 state with
rewards 1 and -1; the stored value is their mean 0 and the count is 2. -/
theorem C4_witness :
    ((∀ ep ∈ c4Episodes, ∀ sa ∈ ep.1, inRect sa.1) ∧
     inRect { dealer := -10, player := -10 } ∧
     mcRun (V.init ((0 : ℚ), (0 : Int))) c4Episodes = some c4Final) ∧
    V.get c4Final { dealer := -10, player := -10 } = some
      (((visitRewards { dealer := -10, player := -10 } c4Episodes).map
          (fun r : Int => (r : ℚ))).sum /
         ((visitRewards { dealer := -10, player := -10 } c4Episodes).length : ℚ),
       ((visitRewards { dealer := -10, player := -10 } c4Episodes).length : Int)) :=
  ⟨⟨by decide, by decide,
    by norm_num [mcRun, mcEpisodeUpdate, c4Episodes, c4Final, V.update, vecUpdate,
      V.init, V.index, cube_index, V.MAX, cube_size, mcValueUpdate,
      List.getElem?_replicate, List.getElem?_set]⟩,
   C4_mc_mean c4Episodes c4Final { dealer := -10, player := -10 }
     (by decide) (by decide)
     (by norm_num [mcRun, mcEpisodeUpdate, c4Episodes, c4Final, V.update, vecUpdate,
       V.init, V.index, cube_index, V.MAX, cube_size, mcValueUpdate,
       List.getElem?_replicate, List.getElem?_set])⟩

theorem sum_sq_zip_self (l : List ℚ) (n : Int) :
    (List.zipWith (fun (p : ℚ × Int) vstar => (p.1 - vstar) * (p.1 - vstar))
      (l.map (fun x => (x, n))) l).sum = 0 := by
  induction l with
  | nil => rfl
  | cons x rest ih =>
    simp only [List.map_cons, List.zipWith_cons_cons, List.sum_cons, ih]
    ring

/-- C7 amended: at the end of every episode the counter goes up by one;
when it reaches a multiple of 1000, td_lambda_control caches
Q::rms_error of its Q table (the sum of squared differences against the
fixed baseline table, which is 0 exactly on a table matching the
baseline), while approx_td_lambda_control stores the constant 0 without
recomputing anything from its weights; otherwise both keep the previous
cached value. -/
theorem C7_rms_cache (e : Int) (q : List (ℚ × Int)) (w : List ℚ) (r : ℚ) :
    ((e + 1) % 1000 = 0 → tdControlEpisodeFinish e q r = (e + 1, rms_error q)) ∧
    ((e + 1) % 1000 ≠ 0 → tdControlEpisodeFinish e q r = (e + 1, r)) ∧
    ((e + 1) % 1000 = 0 → approxEpisodeFinish e w r = (e + 1, 0)) ∧
    ((e + 1) % 1000 ≠ 0 → approxEpisodeFinish e w r = (e + 1, r)) ∧
    rms_error (optimal.map (fun x => (x, (0 : Int)))) = 0 := by
  refine ⟨?_, ?_, ?_, ?_, ?_⟩
  · intro h
    simp [tdControlEpisodeFinish, h]
  · intro h
    simp [tdControlEpisodeFinish, h]
  · intro h
    simp [approxEpisodeFinish, h]
  · intro h
    simp [approxEpisodeFinish, h]
  · rw [rms_error]
    exact sum_sq_zip_self optimal 0

/-- C7 witness: at episode 1000 the td control variant caches the
Q::rms_error of its table and the approximate variant caches 0. -/
theorem C7_witness :
    (999 + 1) % 1000 = 0 ∧
    tdControlEpisodeFinish 999 [((1 : ℚ), (0 : Int))] 5 =
      (999 + 1, rms_error [((1 : ℚ), (0 : Int))]) ∧
    approxEpisodeFinish 999 [(0 : ℚ)] 5 = (999 + 1, 0) ∧
    rms_error (optimal.map (fun x => (x, (0 : Int)))) = 0 :=
  ⟨by decide,
   (C7_rms_cache 999 [((1 : ℚ), (0 : Int))] [(0 : ℚ)] 5).1 (by decide),
   (C7_rms_cache 999 [((1 : ℚ), (0 : Int))] [(0 : ℚ)] 5).2.2.1 (by decide),
   (C7_rms_cache 999 [((1 : ℚ), (0 : Int))] [(0 : ℚ)] 5).2.2.2.2⟩

theorem zip_mul_replicate_zero (l : List ℚ) (n : ℕ) :
    (List.zipWith (fun a b => a * b) l (List.replicate n (0 : ℚ))).sum = 0 := by
  induction l generalizing n with
  | nil => simp
  | cons x rest ih =>
    cases n with
    | zero => simp
    | succ m =>
      rw [List.replicate_succ, List.zipWith_cons_cons, List.sum_cons, ih m]
      simp

set_option maxRecDepth 4000 in
theorem optimalChunk_lengths :
    optimalChunk0.length = 231 ∧ optimalChunk1.length = 231 ∧
    optimalChunk2.length = 231 ∧ optimalChunk3.length = 231 ∧
    optimalChunk4.length = 231 ∧ optimalChunk5.length = 231 ∧
    optimalChunk6.length = 231 ∧ optimalChunk7.length = 231 ∧
    optimalChunk8.length = 231 ∧ optimalChunk9.length = 231 ∧
    optimalChunk10.length = 231 ∧ optimalChunk11.length = 231 ∧
    optimalChunk12.length = 231 ∧ optimalChunk13.length = 231 ∧
    optimalChunk14.length = 128 := by
  refine ⟨?_, ?_, ?_, ?_, ?_, ?_, ?_, ?_, ?_, ?_, ?_, ?_, ?_, ?_, ?_⟩ <;> decide

set_option maxRecDepth 4000 in
theorem optimal_getElem_462 :
    optimal[(462 : Nat)]? = some (-0.11491226520118117) := by
  obtain ⟨l0, l1, l2, _, _, _, _, _, _, _, _, _, _, _, _⟩ := optimalChunk_lengths
  have h01 : (optimalChunk0 ++ optimalChunk1).length = 462 := by
    rw [List.length_append, l0, l1]
  rw [optimal]
  simp only [List.append_assoc]
  rw [← List.append_assoc]
  rw [List.getElem?_append_right (by simp [h01])]
  rw [h01, Nat.sub_self]
  rw [List.getElem?_append]
  rw [if_pos (by rw [l2]; norm_num)]
  rfl

set_option maxRecDepth 40000 in
/-- C7 counterexample: at its 1000th episode the approximate control
variant caches rms_error 0 no matter what its weights are, with the
recomputation commented out in the source: with the all-zero weight
vector the linear prediction at the state dealer 1 / player 1 with Hit
is 0, while the fixed baseline table holds the nonzero value
-0.11491226520118117 for that cell, so the cached 0 is not the error of
the table against the baseline. -/
theorem C7_counterexample :
    approxEpisodeFinish 999 c7w 5 = (1000, 0) ∧
    vectorGetQ c7w { dealer := 1, player := 1 } Action.Hit = 0 ∧
    vecGet optimal (Q.index { dealer := 1, player := 1 } Action.Hit) =
      some (-0.11491226520118117) ∧
    ((-0.11491226520118117 : ℚ) ≠ 0) := by
  refine ⟨?_, ?_, ?_, ?_⟩
  · rfl
  · rw [vectorGetQ, c7w]
    exact zip_mul_replicate_zero _ 36
  · have hidx : Q.index { dealer := 1, player := 1 } Action.Hit = 462 := by decide
    rw [hidx, vecGet, if_neg (by norm_num)]
    exact optimal_getElem_462
  · norm_num

/-- C9 counterexample: the tape built by registering a Var node and then
loss([2], 0) stores the raw expected tensor [2] inline in the Loss
expression rather than a node identifier, and adds a single edge, from
the actual operand only. -/
theorem C9_counterexample :
    (c9Tape.1.nodes.map AD.Node.expr) = [AD.Expr.Var "x", AD.Expr.Loss [2] 0] ∧
    c9Tape.1.edges = [(0, 1)] ∧
    c9Tape.2 = 1 ∧
    AD.Expr.inlineValues (AD.Expr.Loss [2] 0) = [[2]] ∧
    AD.Expr.inlineValues (AD.Expr.Loss [2] 0) ≠ [] := by
  refine ⟨rfl, rfl, rfl, rfl, ?_⟩
  simp [AD.Expr.inlineValues]

/-- C9 amended: loss(expected, actual) appends a node whose expression
stores the expected tensor inline next to the node identifier of actual,
and adds one edge from actual to the new node; the AddVec, MultMat,
Sigma and Relu variants hold only node identifiers for their operands,
and Var holds only a name. -/
theorem C9_loss_inline (t : AD.Tape) (expected : List ℚ)
    (actual left right mat vec : Nat) (nm : String) :
    (t.loss expected actual).2 = t.nodes.length ∧
    (t.loss expected actual).1.nodes =
      t.nodes ++ [AD.Node.new (AD.Expr.Loss expected actual)] ∧
    (t.loss expected actual).1.edges = t.edges ++ [(actual, t.nodes.length)] ∧
    AD.Expr.inlineValues (AD.Expr.Loss expected actual) = [expected] ∧
    AD.Expr.operandIds (AD.Expr.Loss expected actual) = [actual] ∧
    AD.Expr.inlineValues (AD.Expr.AddVec left right) = [] ∧
    AD.Expr.operandIds (AD.Expr.AddVec left right) = [left, right] ∧
    AD.Expr.inlineValues (AD.Expr.MultMat mat vec) = [] ∧
    AD.Expr.inlineValues (AD.Expr.Sigma vec) = [] ∧
    AD.Expr.inlineValues (AD.Expr.Relu vec) = [] ∧
    AD.Expr.inlineValues (AD.Expr.Var nm) = [] :=
  ⟨rfl, rfl, rfl, rfl, rfl, rfl, rfl, rfl, rfl, rfl, rfl⟩
